import Mathlib

/-!
Shallow embedding of the Fiber-Tapering-Setup-Software repository
(`axis_controller.py`, `motion_controller_interface.py`,
`fiber_tapering_test.py`).

Modelling conventions:
* Python floats are modelled as `ℚ`; a float variable initialised to `None`
  is `Option ℚ`.
* The serial transport is not reimplemented.  A query's reply is supplied as
  an argument (for single calls) or drawn from an environment of reply
  streams (for the polling loops); every transport interaction is recorded
  in a trace of `Event`s, so "sends command X" / "sends no command" are
  statable.
* Python exceptions are an `Except PyErr` outcome; because an uncaught
  exception leaves already-performed mutations in place, every method
  returns the post-state and the events emitted so far together with the
  outcome.
* `float(x)` on a reply is absorbed into the `ℚ` reply value; `bool(float x)`
  is `x ≠ 0`; division by zero raises `ZeroDivisionError`; arithmetic or
  format operations on `None` raise `TypeError`.
-/

/-- Query opcodes sent by the axis code: `TP` (position), `TV` (velocity),
`DV` (desired velocity), `MD` (motion-done flag). -/
inductive QueryOp
  | TP | TV | DV | MD
deriving DecidableEq, Repr

/-- Write opcodes sent by the axis code, with their numeric argument when the
command has one: `PA` (absolute move), `PR` (relative move), `VA` (velocity),
`MO` (motor on), `MF` (motor off), `OR0` (home), `ST` (stop). -/
inductive WriteOp
  | PA (p : ℚ) | PR (d : ℚ) | VA (v : ℚ) | MO | MF | OR0 | ST
deriving DecidableEq, Repr

/-- Observable actions of the program: transport writes and queries (tagged
with the axis number), the controller-wide `TB?` error query, and the console
actions of `print_metrics` / `monitor_motion`. -/
inductive Event
  | write (axis : ℕ) (op : WriteOp)
  | query (axis : ℕ) (q : QueryOp)
  | queryTB
  | printHeader
  | escOverwrite
  | printRow (axis : ℕ)
  | printBlank
  | sleep (interval : ℚ)
deriving DecidableEq, Repr

/-- Python exceptions raised by the embedded code. -/
inductive PyErr
  | posOutOfRange
  | notHomed (axis : ℕ)
  | zeroDivision
  | typeError
  | valueError
  | fault (msg : Option String)
deriving DecidableEq, Repr

deriving instance DecidableEq for Except

/-- The parsed numeric replies one `update_axis` round of queries receives:
`tp` for `<n>TP`, `tv` for `<n>TV`, `dv` for `<n>DV`, `md` for `<n>MD`. -/
structure AxisPoll where
  tp : ℚ
  tv : ℚ
  dv : ℚ
  md : ℚ
deriving DecidableEq, Repr

/-- The mutable attributes of `AxisController` (`axis_controller.py`,
`__init__`).  The constructor's `home_pos` argument is accepted but never
stored, exactly as in the source. -/
structure AxisState where
  axis_nr : ℕ
  moving : Option Bool
  on' : Option Bool
  homed : Bool
  pos : Option ℚ
  vel : Option ℚ
  des_pos : Option ℚ
  tot_travel_time : Option ℚ
  travel_time : Option ℚ
  perc_done : Option ℚ
  des_vel : Option ℚ
deriving DecidableEq, Repr

namespace AxisController

/-- `AxisController.__init__`: all metrics start as `None`, `homed` starts
`False`.  The `home_pos` parameter is discarded by the source. -/
def init (axis_nr : ℕ) (home_pos : ℚ) : AxisState :=
  let _ := home_pos
  { axis_nr := axis_nr
    moving := none
    on' := none
    homed := false
    pos := none
    vel := none
    des_pos := none
    tot_travel_time := none
    travel_time := none
    perc_done := none
    des_vel := none }

/-- `get_pos`: queries `<n>TP` and returns the parsed reply. -/
def get_pos (tpReply : ℚ) (s : AxisState) : ℚ × List Event :=
  (tpReply, [Event.query s.axis_nr .TP])

/-- `get_vel`: queries `<n>TV` and returns the parsed reply. -/
def get_vel (tvReply : ℚ) (s : AxisState) : ℚ × List Event :=
  (tvReply, [Event.query s.axis_nr .TV])

/-- `get_des_vel`: queries `<n>DV` and returns the parsed reply. -/
def get_des_vel (dvReply : ℚ) (s : AxisState) : ℚ × List Event :=
  (dvReply, [Event.query s.axis_nr .DV])

/-- `is_moving`: queries `<n>MD` (a "not moving" flag) and returns
`not bool(float(reply))`, i.e. `True` exactly when the reply parses to `0`. -/
def is_moving (mdReply : ℚ) : Bool :=
  decide (mdReply = 0)

/-- `get_travel_time`: `travel_time = abs(des_pos - pos)/vel` and
`perc_done = travel_time/tot_travel_time`, with Python's `None`/zero-division
failures in evaluation order. -/
def get_travel_time (s : AxisState) : Except PyErr (ℚ × ℚ) :=
  match s.des_pos, s.pos with
  | some dp, some p =>
    match s.vel with
    | some v =>
      if v = 0 then .error .zeroDivision
      else
        let tt := |dp - p| / v
        match s.tot_travel_time with
        | some tot =>
          if tot = 0 then .error .zeroDivision else .ok (tt, tt / tot)
        | none => .error .typeError
    | none => .error .typeError
  | _, _ => .error .typeError

/-- The axis state right after `update_axis`'s four assignments
(`self.pos`, `self.vel`, `self.des_vel`, `self.moving`). -/
def refreshed (pl : AxisPoll) (s : AxisState) : AxisState :=
  { s with pos := some pl.tp, vel := some pl.tv, des_vel := some pl.dv,
           moving := some (is_moving pl.md) }

/-- The four queries one `update_axis` round sends, in source order. -/
def upd_queries (s : AxisState) : List Event :=
  [Event.query s.axis_nr .TP, Event.query s.axis_nr .TV,
   Event.query s.axis_nr .DV, Event.query s.axis_nr .MD]

/-- `update_axis`: re-queries position, velocity, desired velocity and the
moving flag, then, when a destination is pending (`des_pos is not None`),
recomputes `travel_time` and `perc_done` via `get_travel_time`. -/
def update_axis (pl : AxisPoll) (s : AxisState) :
    AxisState × List Event × Except PyErr Unit :=
  match s.des_pos with
  | none => (refreshed pl s, upd_queries s, .ok ())
  | some _ =>
    match get_travel_time (refreshed pl s) with
    | .ok (tt, pc) =>
      ({ refreshed pl s with travel_time := some tt, perc_done := some pc },
       upd_queries s, .ok ())
    | .error e => (refreshed pl s, upd_queries s, .error e)

/-- `set_abs_pos`: range check `abs_pos < 0 or abs_pos > 25`, then homed
check, then the `<n>PA` write, then `des_pos := abs_pos`, then
`tot_travel_time := abs(abs_pos - pos)/des_vel` (which can raise
`TypeError`/`ZeroDivisionError` after the write and the `des_pos`
assignment). -/
def set_abs_pos (abs_pos : ℚ) (s : AxisState) :
    AxisState × List Event × Except PyErr Unit :=
  if abs_pos < 0 ∨ 25 < abs_pos then (s, [], .error .posOutOfRange)
  else if ¬ s.homed then (s, [], .error (.notHomed s.axis_nr))
  else
    match s.pos, s.des_vel with
    | some p, some dv =>
      if dv = 0 then
        ({ s with des_pos := some abs_pos },
         [Event.write s.axis_nr (.PA abs_pos)], .error .zeroDivision)
      else
        ({ s with des_pos := some abs_pos,
                  tot_travel_time := some (|abs_pos - p| / dv) },
         [Event.write s.axis_nr (.PA abs_pos)], .ok ())
    | _, _ =>
      ({ s with des_pos := some abs_pos },
       [Event.write s.axis_nr (.PA abs_pos)], .error .typeError)

/-- `set_rel_pos`: computes `abs_pos = rel_pos + self.get_pos()` (a fresh
`<n>TP` query), applies the same range and homed checks, sends `<n>PR`, and
records `des_pos := abs_pos`.  It never touches `tot_travel_time`. -/
def set_rel_pos (rel_pos : ℚ) (tpReply : ℚ) (s : AxisState) :
    AxisState × List Event × Except PyErr Unit :=
  if rel_pos + tpReply < 0 ∨ 25 < rel_pos + tpReply then
    (s, [Event.query s.axis_nr .TP], .error .posOutOfRange)
  else if ¬ s.homed then
    (s, [Event.query s.axis_nr .TP], .error (.notHomed s.axis_nr))
  else
    ({ s with des_pos := some (rel_pos + tpReply) },
     [Event.query s.axis_nr .TP, Event.write s.axis_nr (.PR rel_pos)], .ok ())

/-- `set_vel`: sends `<n>VA` and records `des_vel`. -/
def set_vel (vel : ℚ) (s : AxisState) : AxisState × List Event :=
  ({ s with des_vel := some vel }, [Event.write s.axis_nr (.VA vel)])

/-- `turn_on`: sends `<n>MO`, sets `on := True`. -/
def turn_on (s : AxisState) : AxisState × List Event :=
  ({ s with on' := some true }, [Event.write s.axis_nr .MO])

/-- `turn_off`: sends `<n>MF`, sets `on := False`. -/
def turn_off (s : AxisState) : AxisState × List Event :=
  ({ s with on' := some false }, [Event.write s.axis_nr .MF])

/-- `home`: sends `<n>OR0`, sets `homed := True`. -/
def home (s : AxisState) : AxisState × List Event :=
  ({ s with homed := true }, [Event.write s.axis_nr .OR0])

/-- `stop`: sends `<n>ST`, sets `moving := False`. -/
def stop (s : AxisState) : AxisState × List Event :=
  ({ s with moving := some false }, [Event.write s.axis_nr .ST])

end AxisController

/-- One public operation of `AxisController`, with the transport replies the
operation consumes supplied as constructor arguments. -/
inductive AxisOp
  | getPos (tpReply : ℚ)
  | getVel (tvReply : ℚ)
  | getDesVel (dvReply : ℚ)
  | isMoving (mdReply : ℚ)
  | updateAxis (pl : AxisPoll)
  | setAbsPos (p : ℚ)
  | setRelPos (d : ℚ) (tpReply : ℚ)
  | setVel (v : ℚ)
  | turnOn
  | turnOff
  | home
  | stop
deriving DecidableEq, Repr

/-- Dispatch of a public `AxisController` operation on an axis state. -/
def applyAxisOp (op : AxisOp) (s : AxisState) :
    AxisState × List Event × Except PyErr Unit :=
  match op with
  | .getPos r => (s, (AxisController.get_pos r s).2, .ok ())
  | .getVel r => (s, (AxisController.get_vel r s).2, .ok ())
  | .getDesVel r => (s, (AxisController.get_des_vel r s).2, .ok ())
  | .isMoving r => (s, [Event.query s.axis_nr .MD],
      (fun _ => .ok ()) (AxisController.is_moving r))
  | .updateAxis pl => AxisController.update_axis pl s
  | .setAbsPos p => AxisController.set_abs_pos p s
  | .setRelPos d r => AxisController.set_rel_pos d r s
  | .setVel v => ((AxisController.set_vel v s).1, (AxisController.set_vel v s).2, .ok ())
  | .turnOn => ((AxisController.turn_on s).1, (AxisController.turn_on s).2, .ok ())
  | .turnOff => ((AxisController.turn_off s).1, (AxisController.turn_off s).2, .ok ())
  | .home => ((AxisController.home s).1, (AxisController.home s).2, .ok ())
  | .stop => ((AxisController.stop s).1, (AxisController.stop s).2, .ok ())

/-- The mutable attributes of `Controller_Axis` (`fiber_tapering_test.py`),
the earlier revision: it stores `home_pos` and has no `homed`, `moving`,
`on` or travel-time bookkeeping. -/
structure CAState where
  axis_nr : ℕ
  home_pos : ℚ
  pos : Option ℚ
  vel : Option ℚ
  des_pos : Option ℚ
  set_vel : Option ℚ
deriving DecidableEq, Repr

namespace Controller_Axis

/-- `Controller_Axis.is_moving`: `float(self.get_vel()) != 0.0`, a fresh
`<n>TV` query compared against zero. -/
def is_moving (tvReply : ℚ) : Bool :=
  decide (tvReply ≠ 0)

/-- `Controller_Axis.set_abs_pos`: range check
`abs_pos < home_pos or abs_pos > 25 + home_pos`, then the `<n>PA` write.
No homed check and no destination recording in this revision. -/
def set_abs_pos (abs_pos : ℚ) (s : CAState) :
    CAState × List Event × Except PyErr Unit :=
  if abs_pos < s.home_pos ∨ 25 + s.home_pos < abs_pos then
    (s, [], .error .posOutOfRange)
  else (s, [Event.write s.axis_nr (.PA abs_pos)], .ok ())

/-- `Controller_Axis.set_rel_pos`: `abs_pos = rel_pos + self.get_pos()`,
the same `[home_pos, 25 + home_pos]` range check, then the `<n>PR` write. -/
def set_rel_pos (rel_pos : ℚ) (tpReply : ℚ) (s : CAState) :
    CAState × List Event × Except PyErr Unit :=
  let evq := [Event.query s.axis_nr .TP]
  let abs_pos := rel_pos + tpReply
  if abs_pos < s.home_pos ∨ 25 + s.home_pos < abs_pos then
    (s, evq, .error .posOutOfRange)
  else (s, evq ++ [Event.write s.axis_nr (.PR rel_pos)], .ok ())

end Controller_Axis

/-- Environment of transport reply streams for the polling code of
`MotionControllerInterface`: `poll k n` holds the parsed replies the `k`-th
`update_status` round receives for axis `n`; `tb j` is the raw string reply
to the `j`-th `TB?` error query; `tpr j` is the parsed reply to the `j`-th
standalone `get_pos` query issued by `set_rel_pos`. -/
structure Env where
  poll : ℕ → ℕ → AxisPoll
  tb : ℕ → String
  tpr : ℕ → ℚ

/-- State of `MotionControllerInterface`: its three `AxisController`s
(`self.axes = [self.ax1, self.ax2, self.ax3]`), plus ghost counters `rc`,
`tc`, `pc` indexing into the environment's reply streams (they influence only
which reply is consumed, never control flow). -/
structure CState where
  ax1 : AxisState
  ax2 : AxisState
  ax3 : AxisState
  rc : ℕ
  tc : ℕ
  pc : ℕ
deriving DecidableEq, Repr

/-- Result of a loop that may raise or run out of modelling fuel (the source
loop has no bound; `fuelOut` stands for "still iterating"). -/
inductive Outcome
  | ok
  | raised (e : PyErr)
  | fuelOut
deriving DecidableEq, Repr

/-- Model of Python's `str.split(',')` on the character list of the reply:
splits at every comma, keeping empty pieces. -/
def pySplitComma : List Char → List (List Char)
  | [] => [[]]
  | c :: rest =>
    if c = ',' then [] :: pySplitComma rest
    else
      match pySplitComma rest with
      | [] => [[c]]
      | h :: t => (c :: h) :: t

/-- Model of Python's `int()` on the strings the controller produces: an
optional sign followed by at least one decimal digit; anything else raises
`ValueError` (`none`). -/
def pyInt : List Char → Option Int
  | [] => none
  | '-' :: rest => (pyIntDigits rest).map fun n => -(n : Int)
  | '+' :: rest => (pyIntDigits rest).map fun n => (n : Int)
  | l => (pyIntDigits l).map fun n => (n : Int)
where
  /-- The digit run of `int()`: value of a nonempty all-digit list. -/
  pyIntDigits : List Char → Option ℕ
    | [] => none
    | l => go 0 l
  /-- Left fold of decimal digits. -/
  go (acc : ℕ) : List Char → Option ℕ
    | [] => some acc
    | c :: rest => if c.isDigit then go (acc * 10 + (c.toNat - 48)) rest else none

namespace MotionControllerInterface

/-- `update_status`: `for ax in self.axes: ax.update_axis()` — sequential in
index order; an exception aborts the loop, keeping earlier axes' updates. -/
def update_status (env : Env) (s : CState) :
    CState × List Event × Except PyErr Unit :=
  match (AxisController.update_axis (env.poll s.rc s.ax1.axis_nr) s.ax1).2.2 with
  | .error e =>
    ({ s with ax1 := (AxisController.update_axis (env.poll s.rc s.ax1.axis_nr) s.ax1).1,
              rc := s.rc + 1 },
     (AxisController.update_axis (env.poll s.rc s.ax1.axis_nr) s.ax1).2.1, .error e)
  | .ok _ =>
    match (AxisController.update_axis (env.poll s.rc s.ax2.axis_nr) s.ax2).2.2 with
    | .error e =>
      ({ s with ax1 := (AxisController.update_axis (env.poll s.rc s.ax1.axis_nr) s.ax1).1,
                ax2 := (AxisController.update_axis (env.poll s.rc s.ax2.axis_nr) s.ax2).1,
                rc := s.rc + 1 },
       (AxisController.update_axis (env.poll s.rc s.ax1.axis_nr) s.ax1).2.1 ++
         (AxisController.update_axis (env.poll s.rc s.ax2.axis_nr) s.ax2).2.1, .error e)
    | .ok _ =>
      ({ s with ax1 := (AxisController.update_axis (env.poll s.rc s.ax1.axis_nr) s.ax1).1,
                ax2 := (AxisController.update_axis (env.poll s.rc s.ax2.axis_nr) s.ax2).1,
                ax3 := (AxisController.update_axis (env.poll s.rc s.ax3.axis_nr) s.ax3).1,
                rc := s.rc + 1 },
       (AxisController.update_axis (env.poll s.rc s.ax1.axis_nr) s.ax1).2.1 ++
         (AxisController.update_axis (env.poll s.rc s.ax2.axis_nr) s.ax2).2.1 ++
         (AxisController.update_axis (env.poll s.rc s.ax3.axis_nr) s.ax3).2.1,
       (AxisController.update_axis (env.poll s.rc s.ax3.axis_nr) s.ax3).2.2)

/-- `turn_on_all_axes`: `turn_on` on each axis in index order. -/
def turn_on_all_axes (s : CState) : CState × List Event :=
  ({ s with ax1 := (AxisController.turn_on s.ax1).1,
            ax2 := (AxisController.turn_on s.ax2).1,
            ax3 := (AxisController.turn_on s.ax3).1 },
   (AxisController.turn_on s.ax1).2 ++ (AxisController.turn_on s.ax2).2 ++
     (AxisController.turn_on s.ax3).2)

/-- `turn_off_all_axes`: `turn_off` on each axis in index order. -/
def turn_off_all_axes (s : CState) : CState × List Event :=
  ({ s with ax1 := (AxisController.turn_off s.ax1).1,
            ax2 := (AxisController.turn_off s.ax2).1,
            ax3 := (AxisController.turn_off s.ax3).1 },
   (AxisController.turn_off s.ax1).2 ++ (AxisController.turn_off s.ax2).2 ++
     (AxisController.turn_off s.ax3).2)

/-- `home_all_axes`: `home` on each axis in index order. -/
def home_all_axes (s : CState) : CState × List Event :=
  ({ s with ax1 := (AxisController.home s.ax1).1,
            ax2 := (AxisController.home s.ax2).1,
            ax3 := (AxisController.home s.ax3).1 },
   (AxisController.home s.ax1).2 ++ (AxisController.home s.ax2).2 ++
     (AxisController.home s.ax3).2)

/-- Python truthiness of an `Option Bool` attribute (`None` is falsy). -/
def truthy : Option Bool → Bool
  | none => false
  | some b => b

/-- `any_axis_moving`: `for ax in self.axes: if ax.moving: return True` —
tests the cached `moving` flags in index order, returning at the first
truthy one. -/
def any_axis_moving (s : CState) : Bool :=
  if truthy s.ax1.moving then true
  else if truthy s.ax2.moving then true
  else if truthy s.ax3.moving then true
  else false

/-- The 33-space indentation the source's triple-quoted f-strings embed in
the error texts. -/
def errIndent : String := String.mk (List.replicate 33 ' ')

/-- The controller-wide error text built by `get_errors` when the code has
fewer than 3 digits. -/
def generalErrText (message : String) : String :=
  "An error has occured on the \n" ++ errIndent ++
    "ESP300 Motion Controller:\n\n" ++ errIndent ++ message

/-- The axis-specific error text built by `get_errors` from a 3-digit code's
leading digit. -/
def axisErrText (axis_nr : Int) (message : String) : String :=
  "An error has occured on the \n" ++ errIndent ++
    "ESP300 Motion Controller:\n\n" ++ errIndent ++
    "Axis " ++ toString axis_nr ++ ": " ++ message

/-- The parse-and-format logic of `get_errors`, applied to the raw `TB?`
reply after the query has been sent: split on commas into
`code, time, message` (a `ValueError` if not exactly three parts), parse
`int(code)`; `code > 0` means an error occurred; a code of fewer than
3 characters yields the general text, otherwise `int(code[0])` names the
axis. -/
def tb_reply_result (reply : String) : Except PyErr (Bool × Option String) :=
  match pySplitComma reply.toList with
  | [code, _time, message] =>
    match pyInt code with
    | none => .error .valueError
    | some c =>
      if ¬ (c > 0) then .ok (false, none)
      else if code.length < 3 then
        .ok (true, some (generalErrText (String.mk message)))
      else
        match code with
        | [] => .error .valueError
        | c0 :: _ =>
          match pyInt [c0] with
          | none => .error .valueError
          | some a => .ok (true, some (axisErrText a (String.mk message)))
  | _ => .error .valueError

/-- `get_errors`: sends `TB?` (one query event), then parses the reply via
`tb_reply_result`. -/
def get_errors (reply : String) : List Event × Except PyErr (Bool × Option String) :=
  ([Event.queryTB], tb_reply_result reply)

/-- `print_metrics` formats every metric of an axis with a float format
specifier; any attribute still `None` makes the f-string raise `TypeError`. -/
def rowOk (a : AxisState) : Bool :=
  a.pos.isSome && a.vel.isSome && a.des_pos.isSome && a.des_vel.isSome &&
    a.travel_time.isSome && a.perc_done.isSome

/-- The preamble of `print_metrics`: the header line when `header`, else the
cursor-up escape when `overwrite`, else nothing. -/
def print_pre (header overwrite : Bool) : List Event :=
  if header then [.printHeader] else if overwrite then [.escOverwrite] else []

/-- `print_metrics(header, overwrite)` (continued): after the preamble, one
row per axis in index order; a row whose axis has a `None` metric raises
`TypeError` after the earlier rows have printed. -/
def print_metrics (header overwrite : Bool) (s : CState) :
    List Event × Except PyErr Unit :=
  if ¬ rowOk s.ax1 then (print_pre header overwrite, .error .typeError)
  else if ¬ rowOk s.ax2 then
    (print_pre header overwrite ++ [.printRow s.ax1.axis_nr], .error .typeError)
  else if ¬ rowOk s.ax3 then
    (print_pre header overwrite ++ [.printRow s.ax1.axis_nr, .printRow s.ax2.axis_nr],
     .error .typeError)
  else
    (print_pre header overwrite ++ [.printRow s.ax1.axis_nr, .printRow s.ax2.axis_nr,
             .printRow s.ax3.axis_nr], .ok ())

/-- The controller state after one loop iteration's `update_status` and
`get_errors` round: all axes refreshed, both ghost counters advanced. -/
def after_error_check (env : Env) (s : CState) : CState :=
  { (update_status env s).1 with tc := s.tc + 1 }

/-- The `while self.any_axis_moving():` loop of `monitor_motion`, with fuel
standing in for the unbounded iteration count: while the cached flags report
motion — refresh all axes, query `TB?` and raise on a reported fault (before
printing or sleeping), print one status row per axis, sleep, repeat; once no
axis is moving, print a final snapshot and the closing blank lines. -/
def monitor_loop (env : Env) (interval : ℚ) : ℕ → CState → CState × List Event × Outcome
  | 0, s => (s, [], .fuelOut)
  | fuel + 1, s =>
    if any_axis_moving s then
      match (update_status env s).2.2 with
      | .error e => ((update_status env s).1, (update_status env s).2.1, .raised e)
      | .ok _ =>
        match (get_errors (env.tb s.tc)).2 with
        | .error e =>
          (after_error_check env s,
           (update_status env s).2.1 ++ (get_errors (env.tb s.tc)).1, .raised e)
        | .ok (occurred, msg) =>
          if occurred then
            (after_error_check env s,
             (update_status env s).2.1 ++ (get_errors (env.tb s.tc)).1,
             .raised (.fault msg))
          else
            match (print_metrics false true (after_error_check env s)).2 with
            | .error e =>
              (after_error_check env s,
               (update_status env s).2.1 ++ (get_errors (env.tb s.tc)).1 ++
                 (print_metrics false true (after_error_check env s)).1,
               .raised e)
            | .ok _ =>
              ((monitor_loop env interval fuel (after_error_check env s)).1,
               (update_status env s).2.1 ++ (get_errors (env.tb s.tc)).1 ++
                 (print_metrics false true (after_error_check env s)).1 ++
                 [Event.sleep interval] ++
                 (monitor_loop env interval fuel (after_error_check env s)).2.1,
               (monitor_loop env interval fuel (after_error_check env s)).2.2)
    else
      match (print_metrics false true s).2 with
      | .error e => (s, (print_metrics false true s).1, .raised e)
      | .ok _ => (s, (print_metrics false true s).1 ++ [Event.printBlank], .ok)

/-- `monitor_motion(update_interval)`: one `print_metrics(header=True,
overwrite=False)` call, then the polling loop. -/
def monitor_motion (env : Env) (interval : ℚ) (fuel : ℕ) (s : CState) :
    CState × List Event × Outcome :=
  match (print_metrics true false s).2 with
  | .error e => (s, (print_metrics true false s).1, .raised e)
  | .ok _ =>
    ((monitor_loop env interval fuel s).1,
     (print_metrics true false s).1 ++ (monitor_loop env interval fuel s).2.1,
     (monitor_loop env interval fuel s).2.2)

/-- The body of `perform_motion`'s `for ax, pos, vel in zip(...)` loop for
one axis: `ax.set_vel(vel)` then `ax.set_rel_pos(pos)` or
`ax.set_abs_pos(pos)` per the `rel` flag. -/
def command_axis (rel : Bool) (pos vel : ℚ) (tpReply : ℚ) (a : AxisState) :
    AxisState × List Event × Except PyErr Unit :=
  if rel then
    ((AxisController.set_rel_pos pos tpReply (AxisController.set_vel vel a).1).1,
     (AxisController.set_vel vel a).2 ++
       (AxisController.set_rel_pos pos tpReply (AxisController.set_vel vel a).1).2.1,
     (AxisController.set_rel_pos pos tpReply (AxisController.set_vel vel a).1).2.2)
  else
    ((AxisController.set_abs_pos pos (AxisController.set_vel vel a).1).1,
     (AxisController.set_vel vel a).2 ++
       (AxisController.set_abs_pos pos (AxisController.set_vel vel a).1).2.1,
     (AxisController.set_abs_pos pos (AxisController.set_vel vel a).1).2.2)

/-- The tail of `perform_motion` after the zip loop: `self.monitor_motion()`
(default interval `0.1`) then `self.turn_off_all_axes()`; an exception in the
monitor propagates, skipping the turn-off. -/
def finish_motion (env : Env) (fuel : ℕ) (s : CState) (acc : List Event) :
    CState × List Event × Outcome :=
  match (monitor_motion env (1/10) fuel s).2.2 with
  | .ok =>
    ((turn_off_all_axes (monitor_motion env (1/10) fuel s).1).1,
     acc ++ (monitor_motion env (1/10) fuel s).2.1 ++
       (turn_off_all_axes (monitor_motion env (1/10) fuel s).1).2,
     .ok)
  | r => ((monitor_motion env (1/10) fuel s).1,
          acc ++ (monitor_motion env (1/10) fuel s).2.1, r)

/-- Third (last) iteration of the zip loop, commanding `ax3`; an exhausted
list ends the loop early (Python's `zip` truncation).  An exception from the
command propagates, skipping the monitor and turn-off. -/
def cmd3 (env : Env) (fuel : ℕ) (rel : Bool) (ps vs : List ℚ) (s : CState)
    (acc : List Event) : CState × List Event × Outcome :=
  match ps, vs with
  | p :: _, v :: _ =>
    match (command_axis rel p v (env.tpr s.pc) s.ax3).2.2 with
    | .error e =>
      ({ s with ax3 := (command_axis rel p v (env.tpr s.pc) s.ax3).1,
                pc := s.pc + (if rel then 1 else 0) },
       acc ++ (command_axis rel p v (env.tpr s.pc) s.ax3).2.1, .raised e)
    | .ok _ =>
      finish_motion env fuel
        { s with ax3 := (command_axis rel p v (env.tpr s.pc) s.ax3).1,
                 pc := s.pc + (if rel then 1 else 0) }
        (acc ++ (command_axis rel p v (env.tpr s.pc) s.ax3).2.1)
  | _, _ => finish_motion env fuel s acc

/-- Second iteration of the zip loop, commanding `ax2`. -/
def cmd2 (env : Env) (fuel : ℕ) (rel : Bool) (ps vs : List ℚ) (s : CState)
    (acc : List Event) : CState × List Event × Outcome :=
  match ps, vs with
  | p :: ps2, v :: vs2 =>
    match (command_axis rel p v (env.tpr s.pc) s.ax2).2.2 with
    | .error e =>
      ({ s with ax2 := (command_axis rel p v (env.tpr s.pc) s.ax2).1,
                pc := s.pc + (if rel then 1 else 0) },
       acc ++ (command_axis rel p v (env.tpr s.pc) s.ax2).2.1, .raised e)
    | .ok _ =>
      cmd3 env fuel rel ps2 vs2
        { s with ax2 := (command_axis rel p v (env.tpr s.pc) s.ax2).1,
                 pc := s.pc + (if rel then 1 else 0) }
        (acc ++ (command_axis rel p v (env.tpr s.pc) s.ax2).2.1)
  | _, _ => finish_motion env fuel s acc

/-- First iteration of the zip loop, commanding `ax1`. -/
def cmd1 (env : Env) (fuel : ℕ) (rel : Bool) (ps vs : List ℚ) (s : CState)
    (acc : List Event) : CState × List Event × Outcome :=
  match ps, vs with
  | p :: ps2, v :: vs2 =>
    match (command_axis rel p v (env.tpr s.pc) s.ax1).2.2 with
    | .error e =>
      ({ s with ax1 := (command_axis rel p v (env.tpr s.pc) s.ax1).1,
                pc := s.pc + (if rel then 1 else 0) },
       acc ++ (command_axis rel p v (env.tpr s.pc) s.ax1).2.1, .raised e)
    | .ok _ =>
      cmd2 env fuel rel ps2 vs2
        { s with ax1 := (command_axis rel p v (env.tpr s.pc) s.ax1).1,
                 pc := s.pc + (if rel then 1 else 0) }
        (acc ++ (command_axis rel p v (env.tpr s.pc) s.ax1).2.1)
  | _, _ => finish_motion env fuel s acc

/-- `perform_motion(positions, velocities, rel)`: turn on all axes, home all
axes, refresh status, then the zip loop (`cmd1` → `cmd2` → `cmd3`,
truncating at the shorter list) setting each axis's velocity and commanded
position, then `monitor_motion()` (inside `finish_motion`), then turn off
all axes.  An exception anywhere propagates, skipping the rest. -/
def perform_motion (env : Env) (fuel : ℕ) (positions velocities : List ℚ)
    (rel : Bool) (s : CState) : CState × List Event × Outcome :=
  match (update_status env (home_all_axes (turn_on_all_axes s).1).1).2.2 with
  | .error e =>
    ((update_status env (home_all_axes (turn_on_all_axes s).1).1).1,
     (turn_on_all_axes s).2 ++ (home_all_axes (turn_on_all_axes s).1).2 ++
       (update_status env (home_all_axes (turn_on_all_axes s).1).1).2.1,
     .raised e)
  | .ok _ =>
    cmd1 env fuel rel positions velocities
      (update_status env (home_all_axes (turn_on_all_axes s).1).1).1
      ((turn_on_all_axes s).2 ++ (home_all_axes (turn_on_all_axes s).1).2 ++
        (update_status env (home_all_axes (turn_on_all_axes s).1).1).2.1)

end MotionControllerInterface

/-! ## Helper lemmas about the embedded operations -/

namespace AxisController

/-- The post-state of `update_axis` is the refreshed state, with
`travel_time`/`perc_done` also updated when `get_travel_time` succeeded. -/
theorem update_axis_fst (pl : AxisPoll) (s : AxisState) :
    (update_axis pl s).1 = refreshed pl s ∨
    ∃ tt pc, (update_axis pl s).1 =
      { refreshed pl s with travel_time := some tt, perc_done := some pc } := by
  unfold update_axis
  cases hd : s.des_pos with
  | none => left; rfl
  | some dp =>
    rcases hg : get_travel_time (refreshed pl s) with e | ⟨tt, pc⟩
    · left; simp [hg]
    · right; exact ⟨tt, pc, by simp [hg]⟩

/-- `update_axis` records exactly `is_moving` of the `MD` reply. -/
theorem update_axis_moving (pl : AxisPoll) (s : AxisState) :
    (update_axis pl s).1.moving = some (is_moving pl.md) := by
  rcases update_axis_fst pl s with h | ⟨tt, pc, h⟩ <;> rw [h] <;> rfl

/-- `update_axis` records the `TP` reply as the position. -/
theorem update_axis_pos (pl : AxisPoll) (s : AxisState) :
    (update_axis pl s).1.pos = some pl.tp := by
  rcases update_axis_fst pl s with h | ⟨tt, pc, h⟩ <;> rw [h] <;> rfl

/-- `update_axis` records the `TV` reply as the velocity. -/
theorem update_axis_vel (pl : AxisPoll) (s : AxisState) :
    (update_axis pl s).1.vel = some pl.tv := by
  rcases update_axis_fst pl s with h | ⟨tt, pc, h⟩ <;> rw [h] <;> rfl

/-- `update_axis` records the `DV` reply as the desired velocity. -/
theorem update_axis_des_vel (pl : AxisPoll) (s : AxisState) :
    (update_axis pl s).1.des_vel = some pl.dv := by
  rcases update_axis_fst pl s with h | ⟨tt, pc, h⟩ <;> rw [h] <;> rfl

/-- `update_axis` does not change the homed latch. -/
theorem update_axis_homed (pl : AxisPoll) (s : AxisState) :
    (update_axis pl s).1.homed = s.homed := by
  rcases update_axis_fst pl s with h | ⟨tt, pc, h⟩ <;> rw [h] <;> rfl

/-- `update_axis` does not change the axis number. -/
theorem update_axis_axis_nr (pl : AxisPoll) (s : AxisState) :
    (update_axis pl s).1.axis_nr = s.axis_nr := by
  rcases update_axis_fst pl s with h | ⟨tt, pc, h⟩ <;> rw [h] <;> rfl

/-- `update_axis` does not change the pending destination. -/
theorem update_axis_des_pos (pl : AxisPoll) (s : AxisState) :
    (update_axis pl s).1.des_pos = s.des_pos := by
  rcases update_axis_fst pl s with h | ⟨tt, pc, h⟩ <;> rw [h] <;> rfl

/-- `update_axis` always emits exactly its four queries, in source order. -/
theorem update_axis_events (pl : AxisPoll) (s : AxisState) :
    (update_axis pl s).2.1 = upd_queries s := by
  unfold update_axis
  cases hd : s.des_pos with
  | none => rfl
  | some dp =>
    rcases hg : get_travel_time (refreshed pl s) with e | ⟨tt, pc⟩ <;> simp [hg]

/-- An in-range `set_abs_pos` on a homed axis with a known position and a
nonzero desired velocity: sends the `PA` write and records destination and
total travel time. -/
theorem set_abs_pos_ok (p q dv : ℚ) (s : AxisState) (hh : s.homed = true)
    (hq : s.pos = some q) (hdv : s.des_vel = some dv) (hdv0 : dv ≠ 0)
    (h0 : 0 ≤ p) (h25 : p ≤ 25) :
    set_abs_pos p s =
      ({ s with des_pos := some p, tot_travel_time := some (|p - q| / dv) },
       [Event.write s.axis_nr (.PA p)], .ok ()) := by
  unfold set_abs_pos
  rw [if_neg (by push_neg; exact ⟨h0, h25⟩ : ¬ (p < 0 ∨ 25 < p))]
  rw [hh]
  rw [if_neg (by simp)]
  rw [hq, hdv]
  simp [hdv0]

/-- An out-of-range `set_abs_pos` raises before any transport interaction and
leaves the state untouched. -/
theorem set_abs_pos_oor (p : ℚ) (s : AxisState) (h : p < 0 ∨ 25 < p) :
    set_abs_pos p s = (s, [], .error .posOutOfRange) := by
  unfold set_abs_pos
  rw [if_pos h]

/-- `set_abs_pos` never changes the homed latch. -/
theorem set_abs_pos_homed (p : ℚ) (s : AxisState) :
    (set_abs_pos p s).1.homed = s.homed := by
  unfold set_abs_pos
  split
  · rfl
  · split
    · rfl
    · split
      · split <;> rfl
      · rfl

/-- `set_rel_pos` never changes the homed latch. -/
theorem set_rel_pos_homed (d r : ℚ) (s : AxisState) :
    (set_rel_pos d r s).1.homed = s.homed := by
  unfold set_rel_pos
  split
  · rfl
  · split <;> rfl

end AxisController

namespace AxisController

/-- An in-range `set_rel_pos` on a homed axis: TP query, `PR` write,
destination recorded, `tot_travel_time` untouched. -/
theorem set_rel_pos_ok (d r : ℚ) (s : AxisState) (hh : s.homed = true)
    (h0 : 0 ≤ d + r) (h25 : d + r ≤ 25) :
    set_rel_pos d r s =
      ({ s with des_pos := some (d + r) },
       [Event.query s.axis_nr .TP, Event.write s.axis_nr (.PR d)], .ok ()) := by
  unfold set_rel_pos
  rw [if_neg (by push_neg; exact ⟨h0, h25⟩ : ¬ (d + r < 0 ∨ 25 < d + r))]
  rw [hh]
  rw [if_neg (by simp)]

/-- An out-of-range `set_rel_pos` raises after only the TP query. -/
theorem set_rel_pos_oor (d r : ℚ) (s : AxisState) (h : d + r < 0 ∨ 25 < d + r) :
    set_rel_pos d r s =
      (s, [Event.query s.axis_nr .TP], .error .posOutOfRange) := by
  unfold set_rel_pos
  rw [if_pos h]

end AxisController

/-! ## Claim C1 -/

/-- **C1** (amended): in `AxisController` the admissible range of
`set_abs_pos` is the fixed span `[0, 25]` — the constructor's home offset is
discarded and plays no role; within it, on a homed axis with a known position
and nonzero desired velocity, the `PA` command is sent and `des_pos` /
`tot_travel_time` are recorded; outside it, the call raises the out-of-range
error with no command sent and the state unchanged.  In the `Controller_Axis`
revision the range check is `[home_pos, 25 + home_pos]`, but no destination
is recorded on success. -/
theorem C1_set_abs_pos_range (p q dv : ℚ) (s : AxisState) (t : CAState)
    (hh : s.homed = true) (hq : s.pos = some q) (hdv : s.des_vel = some dv)
    (hdv0 : dv ≠ 0) :
    ((0 ≤ p ∧ p ≤ 25) →
      AxisController.set_abs_pos p s =
        ({ s with des_pos := some p, tot_travel_time := some (|p - q| / dv) },
         [Event.write s.axis_nr (.PA p)], .ok ())) ∧
    ((p < 0 ∨ 25 < p) →
      AxisController.set_abs_pos p s = (s, [], .error .posOutOfRange)) ∧
    ((t.home_pos ≤ p ∧ p ≤ 25 + t.home_pos) →
      Controller_Axis.set_abs_pos p t =
        (t, [Event.write t.axis_nr (.PA p)], .ok ())) ∧
    ((p < t.home_pos ∨ 25 + t.home_pos < p) →
      Controller_Axis.set_abs_pos p t = (t, [], .error .posOutOfRange)) := by
  refine ⟨fun h => AxisController.set_abs_pos_ok p q dv s hh hq hdv hdv0 h.1 h.2,
          fun h => AxisController.set_abs_pos_oor p s h,
          fun h => ?_, fun h => ?_⟩
  · unfold Controller_Axis.set_abs_pos
    rw [if_neg (by push_neg; exact ⟨h.1, h.2⟩ : ¬ (p < t.home_pos ∨ 25 + t.home_pos < p))]
  · unfold Controller_Axis.set_abs_pos
    rw [if_pos h]

/-- A homed `AxisController` axis constructed with home offset `10`, with a
polled position and desired velocity. -/
def axC1 : AxisState :=
  { AxisController.init 1 10 with homed := true, pos := some 2, des_vel := some 1 }

/-- **C1** counterexample: `p = 30` lies inside the claimed range
`[home_offset, home_offset + 25] = [10, 35]` of the axis constructed with
home offset `10`, yet `set_abs_pos 30` on this homed axis raises the
out-of-range error, sends nothing, and leaves the state unchanged. -/
theorem C1_counterexample :
    ((10 : ℚ) ≤ 30 ∧ (30 : ℚ) ≤ 10 + 25) ∧ axC1.homed = true ∧
    AxisController.set_abs_pos 30 axC1 = (axC1, [], .error .posOutOfRange) :=
  ⟨⟨by norm_num, by norm_num⟩, rfl,
   AxisController.set_abs_pos_oor 30 axC1 (by norm_num)⟩

/-- Fresh `Controller_Axis` state with home offset `0`. -/
def caC1 : CAState :=
  { axis_nr := 2, home_pos := 0, pos := none, vel := none, des_pos := none,
    set_vel := none }

/-- **C1** witness: concrete in-range command on both revisions. -/
theorem C1_witness :
    AxisController.set_abs_pos 23 axC1 =
      ({ axC1 with des_pos := some 23, tot_travel_time := some (|(23 : ℚ) - 2| / 1) },
       [Event.write axC1.axis_nr (.PA 23)], .ok ()) ∧
    Controller_Axis.set_abs_pos 23 caC1 =
      (caC1, [Event.write caC1.axis_nr (.PA 23)], .ok ()) :=
  ⟨(C1_set_abs_pos_range 23 2 1 axC1 caC1 rfl rfl rfl (by norm_num)).1
     ⟨by norm_num, by norm_num⟩,
   (C1_set_abs_pos_range 23 2 1 axC1 caC1 rfl rfl rfl (by norm_num)).2.2.1
     ⟨by norm_num [caC1], by norm_num [caC1]⟩⟩

/-! ## Claim C2 -/

/-- **C2** (amended): `set_rel_pos d` applies the `[0, 25]` range check to
`get_pos() + d` exactly as `set_abs_pos (get_pos() + d)` would, and on
success records the same `des_pos`; but it sends `PR d` instead of `PA`, and
it leaves `tot_travel_time` unchanged whereas the absolute command recomputes
it. -/
theorem C2_rel_equiv_abs (d tp q dv : ℚ) (s : AxisState) (hh : s.homed = true)
    (hq : s.pos = some q) (hdv : s.des_vel = some dv) (hdv0 : dv ≠ 0) :
    ((d + tp < 0 ∨ 25 < d + tp) →
      AxisController.set_rel_pos d tp s =
        (s, [Event.query s.axis_nr .TP], .error .posOutOfRange) ∧
      AxisController.set_abs_pos (d + tp) s = (s, [], .error .posOutOfRange)) ∧
    ((0 ≤ d + tp ∧ d + tp ≤ 25) →
      AxisController.set_rel_pos d tp s =
        ({ s with des_pos := some (d + tp) },
         [Event.query s.axis_nr .TP, Event.write s.axis_nr (.PR d)], .ok ()) ∧
      AxisController.set_abs_pos (d + tp) s =
        ({ s with des_pos := some (d + tp),
                  tot_travel_time := some (|d + tp - q| / dv) },
         [Event.write s.axis_nr (.PA (d + tp))], .ok ())) := by
  constructor
  · intro h
    exact ⟨AxisController.set_rel_pos_oor d tp s h,
           AxisController.set_abs_pos_oor (d + tp) s h⟩
  · intro h
    exact ⟨AxisController.set_rel_pos_ok d tp s hh h.1 h.2,
           AxisController.set_abs_pos_ok (d + tp) q dv s hh hq hdv hdv0 h.1 h.2⟩

/-- A homed axis at position `2` with desired velocity `1` and no total
travel time recorded yet. -/
def axC2 : AxisState :=
  { AxisController.init 2 0 with homed := true, pos := some 2, des_vel := some 1 }

/-- **C2** counterexample: from position `2`, `set_rel_pos 3` and
`set_abs_pos 5` both succeed with destination `5`, but the relative command
leaves `tot_travel_time = None` while the absolute one sets it to `3` — the
recorded states differ, refuting the claimed state equivalence. -/
theorem C2_counterexample :
    (AxisController.set_rel_pos 3 2 axC2).2.2 = .ok () ∧
    (AxisController.set_abs_pos 5 axC2).2.2 = .ok () ∧
    (AxisController.set_rel_pos 3 2 axC2).1.des_pos = some 5 ∧
    (AxisController.set_abs_pos 5 axC2).1.des_pos = some 5 ∧
    (AxisController.set_rel_pos 3 2 axC2).1.tot_travel_time = none ∧
    (AxisController.set_abs_pos 5 axC2).1.tot_travel_time = some 3 := by
  have h1 := AxisController.set_rel_pos_ok 3 2 axC2 rfl (by norm_num) (by norm_num)
  have h2 := AxisController.set_abs_pos_ok 5 2 1 axC2 rfl rfl rfl (by norm_num)
    (by norm_num) (by norm_num)
  rw [show (3 : ℚ) + 2 = 5 by norm_num] at h1
  refine ⟨by rw [h1], by rw [h2], by rw [h1], by rw [h2], by rw [h1]; rfl, ?_⟩
  rw [h2]
  show some (|(5 : ℚ) - 2| / 1) = some 3
  rw [show |(5 : ℚ) - 2| = 3 from by
    rw [show (5 : ℚ) - 2 = 3 by norm_num]; exact abs_of_nonneg (by norm_num)]
  norm_num

/-- **C2** witness: concrete out-of-range relative command, rejected exactly
like the corresponding absolute command. -/
theorem C2_witness :
    AxisController.set_rel_pos 30 2 axC2 =
      (axC2, [Event.query axC2.axis_nr .TP], .error .posOutOfRange) ∧
    AxisController.set_abs_pos (30 + 2) axC2 = (axC2, [], .error .posOutOfRange) :=
  (C2_rel_equiv_abs 30 2 2 1 axC2 rfl rfl rfl (by norm_num)).1 (by norm_num)

/-! ## Claim C3 -/

/-- **C3** (amended): `AxisController.is_moving` is determined by the `MD`
query's reply alone — true exactly when the reply parses to `0` (the inverted
"not moving" flag) — and `update_axis` stores exactly that; it is not derived
from the velocity.  The `Controller_Axis` revision instead derives moving
from a fresh velocity query (`get_vel() != 0`). -/
theorem C3_is_moving_from_md (pl pl' : AxisPoll) (s s' : AxisState) (tv : ℚ)
    (hmd : pl.md = pl'.md) :
    (AxisController.update_axis pl s).1.moving =
      some (AxisController.is_moving pl.md) ∧
    (AxisController.update_axis pl s).1.moving =
      (AxisController.update_axis pl' s').1.moving ∧
    AxisController.is_moving pl.md = decide (pl.md = 0) ∧
    Controller_Axis.is_moving tv = decide (tv ≠ 0) := by
  refine ⟨AxisController.update_axis_moving pl s, ?_, rfl, rfl⟩
  rw [AxisController.update_axis_moving, AxisController.update_axis_moving, hmd]

/-- Poll whose velocity reply is nonzero while the `MD` reply reports the
motion done. -/
def pollC3 : AxisPoll := ⟨0, 5, 1, 1⟩

/-- **C3** counterexample: after a refresh in which the `TV` reply is `5`
(nonzero velocity) but the `MD` reply is `1`, the stored moving flag is
`False` — `is_moving` is not `velocity ≠ 0`. -/
theorem C3_counterexample :
    (AxisController.update_axis pollC3 (AxisController.init 1 0)).1.vel = some 5 ∧
    (5 : ℚ) ≠ 0 ∧
    (AxisController.update_axis pollC3 (AxisController.init 1 0)).1.moving =
      some false := by
  refine ⟨AxisController.update_axis_vel pollC3 (AxisController.init 1 0),
          by norm_num, ?_⟩
  rw [AxisController.update_axis_moving]
  norm_num [AxisController.is_moving, pollC3]

/-- **C3** witness: concrete refresh storing the `MD`-derived flag. -/
theorem C3_witness :
    (AxisController.update_axis pollC3 (AxisController.init 2 0)).1.moving =
      some (AxisController.is_moving pollC3.md) :=
  (C3_is_moving_from_md pollC3 pollC3 (AxisController.init 2 0)
    (AxisController.init 2 0) 0 rfl).1

/-! ## Claim C10 -/

/-- **C10**: whenever a destination is pending and the freshly polled
velocity reads `0`, `update_axis` raises `ZeroDivisionError` out of
`get_travel_time`'s unguarded division, instead of reporting an idle state:
the refreshed metrics are kept but the travel-time update aborts. -/
theorem C10_refresh_div_by_zero (pl : AxisPoll) (s : AxisState) (dp : ℚ)
    (hdes : s.des_pos = some dp) (htv : pl.tv = 0) :
    AxisController.update_axis pl s =
      (AxisController.refreshed pl s, AxisController.upd_queries s,
       .error .zeroDivision) ∧
    AxisController.get_travel_time (AxisController.refreshed pl s) =
      .error .zeroDivision := by
  have hg : AxisController.get_travel_time (AxisController.refreshed pl s) =
      .error .zeroDivision := by
    unfold AxisController.get_travel_time AxisController.refreshed
    simp [hdes, htv]
  refine ⟨?_, hg⟩
  unfold AxisController.update_axis
  simp [hdes, hg]

/-- Axis with a pending destination (commanded to `5`). -/
def axC10 : AxisState := { AxisController.init 2 0 with des_pos := some 5 }

/-- **C10** witness: refreshing the commanded axis while the controller
reports velocity `0` raises the division error. -/
theorem C10_witness :
    AxisController.update_axis ⟨1, 0, 1, 1⟩ axC10 =
      (AxisController.refreshed ⟨1, 0, 1, 1⟩ axC10,
       AxisController.upd_queries axC10, .error .zeroDivision) :=
  (C10_refresh_div_by_zero ⟨1, 0, 1, 1⟩ axC10 5 rfl rfl).1

/-! ## Claim C5 -/

set_option maxRecDepth 8000 in
/-- **C5**: `get_errors` parsing of the three reference `TB?` replies:
code `0` → no error; 2-digit code `25` → error with the general text (which
mentions no axis); 3-digit code `125` → error with the text naming axis `1`,
the code's leading digit. -/
theorem C5_get_errors_parsing :
    MotionControllerInterface.get_errors "0,12:00:00,NO ERROR" =
      ([Event.queryTB], .ok (false, none)) ∧
    MotionControllerInterface.get_errors "25,12:00:01,CMD ERR" =
      ([Event.queryTB],
       .ok (true, some (MotionControllerInterface.generalErrText "CMD ERR"))) ∧
    ¬ ("Axis".toList <:+:
        (MotionControllerInterface.generalErrText "CMD ERR").toList) ∧
    MotionControllerInterface.get_errors "125,12:00:02,OUT OF RANGE" =
      ([Event.queryTB],
       .ok (true, some (MotionControllerInterface.axisErrText 1 "OUT OF RANGE"))) ∧
    ("Axis 1".toList <:+:
        (MotionControllerInterface.axisErrText 1 "OUT OF RANGE").toList) :=
  ⟨by decide, by decide, by decide, by decide, by decide⟩

/-! ## Claim C6 -/

/-- **C6**: the homed flag is a latch — a freshly constructed axis is not
homed, `home()` sends `OR0` and latches the flag, and no public
`AxisController` operation (succeeding or raising) ever resets a homed axis
to unhomed. -/
theorem C6_homed_latch :
    (∀ (n : ℕ) (h₀ : ℚ), (AxisController.init n h₀).homed = false) ∧
    (∀ s : AxisState, (AxisController.home s).1.homed = true ∧
       (AxisController.home s).2 = [Event.write s.axis_nr .OR0]) ∧
    (∀ (op : AxisOp) (s : AxisState), s.homed = true →
       (applyAxisOp op s).1.homed = true) := by
  refine ⟨fun n h₀ => rfl, fun s => ⟨rfl, rfl⟩, fun op s hs => ?_⟩
  cases op with
  | getPos r => exact hs
  | getVel r => exact hs
  | getDesVel r => exact hs
  | isMoving r => exact hs
  | updateAxis pl =>
    show (AxisController.update_axis pl s).1.homed = true
    rw [AxisController.update_axis_homed]; exact hs
  | setAbsPos p =>
    show (AxisController.set_abs_pos p s).1.homed = true
    rw [AxisController.set_abs_pos_homed]; exact hs
  | setRelPos d r =>
    show (AxisController.set_rel_pos d r s).1.homed = true
    rw [AxisController.set_rel_pos_homed]; exact hs
  | setVel v => exact hs
  | turnOn => exact hs
  | turnOff => exact hs
  | home => rfl
  | stop => exact hs

/-- A homed axis used to exercise the latch. -/
def axC6 : AxisState := { AxisController.init 3 0 with homed := true }

/-- **C6** witness: even a rejected position command (out of range) leaves
the latch set. -/
theorem C6_witness : (applyAxisOp (.setAbsPos 40) axC6).1.homed = true :=
  C6_homed_latch.2.2 (.setAbsPos 40) axC6 rfl

/-! ## Claim C7 -/

/-- Axis commanded from `0` to `10` at desired velocity `1`
(`tot_travel_time = 10`), now observed mid-travel. -/
def axC7 : AxisState :=
  { AxisController.init 1 0 with des_pos := some 10, tot_travel_time := some 10 }

/-- **C7** (evaluation at the failing input): `update_axis` does re-query
position, velocity, desired velocity and the moving flag; but the recorded
`perc_done` is `remaining travel time / total travel time`, not
elapsed/total: a quarter of the way in (position `5/2` of `10`) it reads
`3/4`, and three quarters of the way in (position `15/2`) it reads `1/4` —
the fraction shrinks towards `0` as the axis approaches its destination,
the opposite of the claimed completion fraction. -/
theorem C7_fraction_runs_backwards :
    (AxisController.update_axis ⟨5/2, 1, 1, 0⟩ axC7).1.pos = some (5/2) ∧
    (AxisController.update_axis ⟨5/2, 1, 1, 0⟩ axC7).1.vel = some 1 ∧
    (AxisController.update_axis ⟨5/2, 1, 1, 0⟩ axC7).1.des_vel = some 1 ∧
    (AxisController.update_axis ⟨5/2, 1, 1, 0⟩ axC7).1.moving = some true ∧
    (AxisController.update_axis ⟨5/2, 1, 1, 0⟩ axC7).1.perc_done = some (3/4) ∧
    (AxisController.update_axis ⟨15/2, 1, 1, 0⟩ axC7).1.perc_done = some (1/4) ∧
    |(10 : ℚ) - 15/2| < |(10 : ℚ) - 5/2| ∧ (1/4 : ℚ) < 3/4 ∧ (3/4 : ℚ) ≠ 1/4 := by
  have habs1 : |(10 : ℚ) - 5/2| = 15/2 := by
    rw [show (10 : ℚ) - 5/2 = 15/2 by norm_num]; exact abs_of_nonneg (by norm_num)
  have habs2 : |(10 : ℚ) - 15/2| = 5/2 := by
    rw [show (10 : ℚ) - 15/2 = 5/2 by norm_num]; exact abs_of_nonneg (by norm_num)
  have habs1' : |(15 : ℚ)/2| = 15/2 := abs_of_nonneg (by norm_num)
  have habs2' : |(5 : ℚ)/2| = 5/2 := abs_of_nonneg (by norm_num)
  have hg1 : AxisController.get_travel_time
      (AxisController.refreshed ⟨5/2, 1, 1, 0⟩ axC7) = .ok (15/2, 3/4) := by
    unfold AxisController.get_travel_time AxisController.refreshed axC7 AxisController.init
    norm_num [habs1, habs1']
  have hg2 : AxisController.get_travel_time
      (AxisController.refreshed ⟨15/2, 1, 1, 0⟩ axC7) = .ok (5/2, 1/4) := by
    unfold AxisController.get_travel_time AxisController.refreshed axC7 AxisController.init
    norm_num [habs2, habs2']
  have hu1 : AxisController.update_axis ⟨5/2, 1, 1, 0⟩ axC7 =
      ({ AxisController.refreshed ⟨5/2, 1, 1, 0⟩ axC7 with
          travel_time := some (15/2), perc_done := some (3/4) },
       AxisController.upd_queries axC7, .ok ()) := by
    unfold AxisController.update_axis
    simp [hg1, show axC7.des_pos = some 10 from rfl]
  have hu2 : AxisController.update_axis ⟨15/2, 1, 1, 0⟩ axC7 =
      ({ AxisController.refreshed ⟨15/2, 1, 1, 0⟩ axC7 with
          travel_time := some (5/2), perc_done := some (1/4) },
       AxisController.upd_queries axC7, .ok ()) := by
    unfold AxisController.update_axis
    simp [hg2, show axC7.des_pos = some 10 from rfl]
  refine ⟨by rw [hu1]; rfl, by rw [hu1]; rfl, by rw [hu1]; rfl, ?_,
          by rw [hu1], by rw [hu2], by rw [habs1, habs2]; norm_num,
          by norm_num, by norm_num⟩
  rw [hu1]
  show some (AxisController.is_moving (0 : ℚ)) = some true
  rfl

namespace MotionControllerInterface

/-- A successful `update_status` refreshes all three axes from the `rc`-th
poll round in index order, bumps the round counter, and emits exactly the
three axes' queries. -/
theorem update_status_ok_spec (env : Env) (s : CState)
    (h : (update_status env s).2.2 = .ok ()) :
    update_status env s =
      ({ s with
          ax1 := (AxisController.update_axis (env.poll s.rc s.ax1.axis_nr) s.ax1).1,
          ax2 := (AxisController.update_axis (env.poll s.rc s.ax2.axis_nr) s.ax2).1,
          ax3 := (AxisController.update_axis (env.poll s.rc s.ax3.axis_nr) s.ax3).1,
          rc := s.rc + 1 },
       AxisController.upd_queries s.ax1 ++ AxisController.upd_queries s.ax2 ++
         AxisController.upd_queries s.ax3,
       .ok ()) := by
  unfold update_status at h ⊢
  rcases h1 : (AxisController.update_axis (env.poll s.rc s.ax1.axis_nr) s.ax1).2.2
    with e | u
  · simp [h1] at h
  · simp only [h1] at h ⊢
    rcases h2 : (AxisController.update_axis (env.poll s.rc s.ax2.axis_nr) s.ax2).2.2
      with e | u2
    · simp [h2] at h
    · simp only [h2] at h ⊢
      simp [h, AxisController.update_axis_events]

/-- `update_status` preserves all three axis numbers. -/
theorem update_status_axis_nr (env : Env) (s : CState) :
    (update_status env s).1.ax1.axis_nr = s.ax1.axis_nr ∧
    (update_status env s).1.ax2.axis_nr = s.ax2.axis_nr ∧
    (update_status env s).1.ax3.axis_nr = s.ax3.axis_nr := by
  unfold update_status
  rcases h1 : (AxisController.update_axis (env.poll s.rc s.ax1.axis_nr) s.ax1).2.2
    with e | u
  · simp [h1, AxisController.update_axis_axis_nr]
  · rcases h2 : (AxisController.update_axis (env.poll s.rc s.ax2.axis_nr) s.ax2).2.2
      with e | u <;> simp [h1, h2, AxisController.update_axis_axis_nr]

/-- The events of any `update_status` round are a prefix of the three axes'
query blocks. -/
theorem update_status_events_cases (env : Env) (s : CState) :
    (update_status env s).2.1 = AxisController.upd_queries s.ax1 ∨
    (update_status env s).2.1 =
      AxisController.upd_queries s.ax1 ++ AxisController.upd_queries s.ax2 ∨
    (update_status env s).2.1 =
      AxisController.upd_queries s.ax1 ++ AxisController.upd_queries s.ax2 ++
        AxisController.upd_queries s.ax3 := by
  unfold update_status
  rcases h1 : (AxisController.update_axis (env.poll s.rc s.ax1.axis_nr) s.ax1).2.2
    with e | u
  · left; simp [h1, AxisController.update_axis_events]
  · rcases h2 : (AxisController.update_axis (env.poll s.rc s.ax2.axis_nr) s.ax2).2.2
      with e | u
    · right; left; simp [h1, h2, AxisController.update_axis_events]
    · right; right; simp [h1, h2, AxisController.update_axis_events]

end MotionControllerInterface

/-! ## Claim C4 -/

/-- **C4** (amended): `any_axis_moving` is the short-circuiting OR, in fixed
index order, of the three axes' cached `moving` flags; a successful refresh
sets each flag from that axis's `MD` reply (true iff the reply parses to
`0`), not from the velocity. -/
theorem C4_any_axis_moving (s : CState) (env : Env) :
    (MotionControllerInterface.any_axis_moving s =
      (MotionControllerInterface.truthy s.ax1.moving ||
       MotionControllerInterface.truthy s.ax2.moving ||
       MotionControllerInterface.truthy s.ax3.moving)) ∧
    (MotionControllerInterface.truthy s.ax1.moving = true →
      MotionControllerInterface.any_axis_moving s = true) ∧
    ((MotionControllerInterface.update_status env s).2.2 = .ok () →
      (MotionControllerInterface.update_status env s).1.ax1.moving =
        some (AxisController.is_moving (env.poll s.rc s.ax1.axis_nr).md) ∧
      (MotionControllerInterface.update_status env s).1.ax2.moving =
        some (AxisController.is_moving (env.poll s.rc s.ax2.axis_nr).md) ∧
      (MotionControllerInterface.update_status env s).1.ax3.moving =
        some (AxisController.is_moving (env.poll s.rc s.ax3.axis_nr).md)) := by
  refine ⟨?_, ?_, fun h => ?_⟩
  · unfold MotionControllerInterface.any_axis_moving
    cases MotionControllerInterface.truthy s.ax1.moving <;>
      cases MotionControllerInterface.truthy s.ax2.moving <;>
      cases MotionControllerInterface.truthy s.ax3.moving <;> simp
  · intro h
    unfold MotionControllerInterface.any_axis_moving
    rw [h]
    simp
  · rw [MotionControllerInterface.update_status_ok_spec env s h]
    exact ⟨AxisController.update_axis_moving _ _,
           AxisController.update_axis_moving _ _,
           AxisController.update_axis_moving _ _⟩

/-- Controller state with three freshly constructed axes. -/
def csC4 : CState :=
  { ax1 := AxisController.init 1 0, ax2 := AxisController.init 2 0,
    ax3 := AxisController.init 3 0, rc := 0, tc := 0, pc := 0 }

/-- Environment whose polls report nonzero velocity (`TV = 5`) but a set
"motion done" flag (`MD = 1`), and no controller error. -/
def envC4 : Env :=
  { poll := fun _ _ => ⟨0, 5, 1, 1⟩, tb := fun _ => "0,12:00:00,NO ERROR",
    tpr := fun _ => 0 }

/-- **C4** counterexample: after a refresh in which every axis's
last-refreshed velocity is `5 ≠ 0` but every `MD` reply is `1`,
`any_axis_moving` returns `False` — it follows the cached `MD`-derived
moving flags, not the velocities. -/
theorem C4_counterexample :
    (MotionControllerInterface.update_status envC4 csC4).2.2 = .ok () ∧
    (MotionControllerInterface.update_status envC4 csC4).1.ax1.vel = some 5 ∧
    (5 : ℚ) ≠ 0 ∧
    MotionControllerInterface.any_axis_moving
      (MotionControllerInterface.update_status envC4 csC4).1 = false :=
  ⟨rfl, rfl, by norm_num, rfl⟩

/-- **C4** witness: the refreshed moving flag of axis 1 is the
`MD`-derived value. -/
theorem C4_witness :
    (MotionControllerInterface.update_status envC4 csC4).1.ax1.moving =
      some (AxisController.is_moving (envC4.poll csC4.rc csC4.ax1.axis_nr).md) :=
  ((C4_any_axis_moving csC4 envC4).2.2 rfl).1

namespace MotionControllerInterface

/-- The header event never occurs in an axis's refresh queries. -/
theorem hdr_not_in_upd_queries (a : AxisState) :
    Event.printHeader ∉ AxisController.upd_queries a := by
  simp [AxisController.upd_queries]

/-- The header event never occurs in a refresh round's trace. -/
theorem hdr_not_in_update_status (env : Env) (s : CState) :
    Event.printHeader ∉ (update_status env s).2.1 := by
  rcases update_status_events_cases env s with h | h | h <;> rw [h] <;>
    simp [AxisController.upd_queries]

/-- No status row is printed by a refresh round. -/
theorem row_not_in_update_status (env : Env) (s : CState) (n : ℕ) :
    Event.printRow n ∉ (update_status env s).2.1 := by
  rcases update_status_events_cases env s with h | h | h <;> rw [h] <;>
    simp [AxisController.upd_queries]

/-- No sleep occurs in a refresh round's trace. -/
theorem sleep_not_in_update_status (env : Env) (s : CState) (q : ℚ) :
    Event.sleep q ∉ (update_status env s).2.1 := by
  rcases update_status_events_cases env s with h | h | h <;> rw [h] <;>
    simp [AxisController.upd_queries]

/-- A headerless `print_metrics` call never prints the header. -/
theorem print_metrics_false_no_header (o : Bool) (s : CState) :
    Event.printHeader ∉ (print_metrics false o s).1 := by
  unfold print_metrics print_pre
  split_ifs <;> simp_all

/-- A `print_metrics` call with `header=True` prints the header exactly
once, whatever else happens. -/
theorem print_metrics_true_count (o : Bool) (s : CState) :
    (print_metrics true o s).1.count Event.printHeader = 1 := by
  unfold print_metrics print_pre
  split_ifs <;> simp_all

/-- The polling loop itself never prints the header. -/
theorem monitor_loop_hdr_count (env : Env) (i : ℚ) :
    ∀ (fuel : ℕ) (s : CState),
      (monitor_loop env i fuel s).2.1.count Event.printHeader = 0 := by
  intro fuel
  induction fuel with
  | zero => intro s; rfl
  | succ n ih =>
    intro s
    unfold monitor_loop
    by_cases hm : any_axis_moving s = true
    · rcases hu : (update_status env s).2.2 with e | u
      · simp [hm, hu, List.count_eq_zero.mpr (hdr_not_in_update_status env s)]
      · rcases hg : (get_errors (env.tb s.tc)).2 with e | ⟨occ, msg⟩
        · simp [hm, hu, hg, get_errors, List.count_append,
                List.count_eq_zero.mpr (hdr_not_in_update_status env s)]
        · cases occ
          · rcases hp : (print_metrics false true (after_error_check env s)).2
              with e | u2
            · simp [hm, hu, hg, hp, get_errors, List.count_append,
                    List.count_eq_zero.mpr (hdr_not_in_update_status env s),
                    List.count_eq_zero.mpr (print_metrics_false_no_header true _)]
            · simp [hm, hu, hg, hp, ih, get_errors, List.count_append,
                    List.count_eq_zero.mpr (hdr_not_in_update_status env s),
                    List.count_eq_zero.mpr (print_metrics_false_no_header true _)]
          · simp [hm, hu, hg, get_errors, List.count_append,
                  List.count_eq_zero.mpr (hdr_not_in_update_status env s)]
    · rcases hp : (print_metrics false true s).2 with e | u
      · simp [hm, hp, List.count_eq_zero.mpr (print_metrics_false_no_header true s)]
      · simp [hm, hp, List.count_append,
              List.count_eq_zero.mpr (print_metrics_false_no_header true s)]

end MotionControllerInterface

/-! ## Claim C9 -/

/-- **C9**: the monitor prints the header exactly once (first conjunct);
while an axis is moving, an iteration refreshes all axes then checks the
controller for a fault and, if one is reported, raises immediately — its
trace ends at the `TB?` query, with no status row and no sleep (second
conjunct); with no fault it prints the per-axis rows and sleeps before
looping (third conjunct); and when no axis is moving the loop prints one
final snapshot and terminates normally (fourth conjunct). -/
theorem C9_monitor_behaviour (env : Env) (i : ℚ) (fuel : ℕ) (s : CState) :
    ((MotionControllerInterface.monitor_motion env i fuel s).2.1.count
        Event.printHeader = 1) ∧
    (∀ msg : Option String,
      MotionControllerInterface.any_axis_moving s = true →
      (MotionControllerInterface.update_status env s).2.2 = .ok () →
      MotionControllerInterface.tb_reply_result (env.tb s.tc) = .ok (true, msg) →
      MotionControllerInterface.monitor_loop env i (fuel + 1) s =
        (MotionControllerInterface.after_error_check env s,
         (MotionControllerInterface.update_status env s).2.1 ++ [Event.queryTB],
         .raised (.fault msg)) ∧
      (∀ n, Event.printRow n ∉
        (MotionControllerInterface.monitor_loop env i (fuel + 1) s).2.1) ∧
      (∀ q, Event.sleep q ∉
        (MotionControllerInterface.monitor_loop env i (fuel + 1) s).2.1)) ∧
    (MotionControllerInterface.any_axis_moving s = true →
      (MotionControllerInterface.update_status env s).2.2 = .ok () →
      MotionControllerInterface.tb_reply_result (env.tb s.tc) = .ok (false, none) →
      (MotionControllerInterface.print_metrics false true
          (MotionControllerInterface.after_error_check env s)).2 = .ok () →
      MotionControllerInterface.monitor_loop env i (fuel + 1) s =
        ((MotionControllerInterface.monitor_loop env i fuel
            (MotionControllerInterface.after_error_check env s)).1,
         (MotionControllerInterface.update_status env s).2.1 ++ [Event.queryTB] ++
           (MotionControllerInterface.print_metrics false true
             (MotionControllerInterface.after_error_check env s)).1 ++
           [Event.sleep i] ++
           (MotionControllerInterface.monitor_loop env i fuel
             (MotionControllerInterface.after_error_check env s)).2.1,
         (MotionControllerInterface.monitor_loop env i fuel
           (MotionControllerInterface.after_error_check env s)).2.2)) ∧
    (MotionControllerInterface.any_axis_moving s = false →
      (MotionControllerInterface.print_metrics false true s).2 = .ok () →
      MotionControllerInterface.monitor_loop env i (fuel + 1) s =
        (s, (MotionControllerInterface.print_metrics false true s).1 ++
            [Event.printBlank], .ok)) := by
  refine ⟨?_, ?_, ?_, ?_⟩
  · unfold MotionControllerInterface.monitor_motion
    rcases hp : (MotionControllerInterface.print_metrics true false s).2 with e | u
    · simp [hp, MotionControllerInterface.print_metrics_true_count]
    · simp [hp, List.count_append,
            MotionControllerInterface.print_metrics_true_count,
            MotionControllerInterface.monitor_loop_hdr_count]
  · intro msg hm hu hg
    have heq : MotionControllerInterface.monitor_loop env i (fuel + 1) s =
        (MotionControllerInterface.after_error_check env s,
         (MotionControllerInterface.update_status env s).2.1 ++ [Event.queryTB],
         .raised (.fault msg)) := by
      unfold MotionControllerInterface.monitor_loop
      simp [hm, hu, MotionControllerInterface.get_errors, hg]
    refine ⟨heq, ?_, ?_⟩
    · intro n
      rw [heq]
      simp [MotionControllerInterface.row_not_in_update_status env s n]
    · intro q
      rw [heq]
      simp [MotionControllerInterface.sleep_not_in_update_status env s q]
  · intro hm hu hg hp
    conv_lhs => rw [MotionControllerInterface.monitor_loop]
    simp [hm, hu, MotionControllerInterface.get_errors, hg, hp]
  · intro hm hp
    unfold MotionControllerInterface.monitor_loop
    simp [hm, hp]

/-- An idle, fully populated axis record (as left behind by a completed
motion): all metrics known, moving flag cleared. -/
def axIdle (n : ℕ) : AxisState :=
  { axis_nr := n, moving := some false, on' := some true, homed := true,
    pos := some 3, vel := some 1, des_pos := some 3, tot_travel_time := some 5,
    travel_time := some 0, perc_done := some 0, des_vel := some 1 }

/-- Controller state with three idle axes. -/
def csC9 : CState :=
  { ax1 := axIdle 1, ax2 := axIdle 2, ax3 := axIdle 3, rc := 0, tc := 0, pc := 0 }

/-- Quiet environment for the monitor loop. -/
def envC9 : Env :=
  { poll := fun _ _ => ⟨3, 1, 1, 1⟩, tb := fun _ => "0,12:00:00,NO ERROR",
    tpr := fun _ => 3 }

/-- **C9** witness: with no axis moving, one loop entry prints the final
snapshot and terminates normally. -/
theorem C9_witness :
    MotionControllerInterface.monitor_loop envC9 (1/10) 1 csC9 =
      (csC9, (MotionControllerInterface.print_metrics false true csC9).1 ++
        [Event.printBlank], .ok) :=
  ((C9_monitor_behaviour envC9 (1/10) 0 csC9).2.2.2) rfl rfl

namespace MotionControllerInterface

/-- One zip-loop iteration with `rel = False` on a homed axis with known
position and nonzero commanded velocity: sends `VA` then `PA`, recording
desired velocity, destination and total travel time. -/
theorem command_axis_abs_ok (p v r q : ℚ) (a : AxisState)
    (hh : a.homed = true) (hq : a.pos = some q) (h0 : 0 ≤ p) (h25 : p ≤ 25)
    (hv : v ≠ 0) :
    command_axis false p v r a =
      ({ a with des_vel := some v, des_pos := some p,
                tot_travel_time := some (|p - q| / v) },
       [Event.write a.axis_nr (.VA v), Event.write a.axis_nr (.PA p)], .ok ()) := by
  unfold command_axis
  rw [if_neg (by simp : ¬ (false = true))]
  rw [AxisController.set_abs_pos_ok p q v (AxisController.set_vel v a).1 hh hq rfl hv
      h0 h25]
  simp [AxisController.set_vel]

/-- `after_error_check` keeps the axes' numbers. -/
theorem after_error_check_axis_nr (env : Env) (s : CState) :
    (after_error_check env s).ax1.axis_nr = s.ax1.axis_nr ∧
    (after_error_check env s).ax2.axis_nr = s.ax2.axis_nr ∧
    (after_error_check env s).ax3.axis_nr = s.ax3.axis_nr := by
  unfold after_error_check
  exact ⟨(update_status_axis_nr env s).1, (update_status_axis_nr env s).2.1,
         (update_status_axis_nr env s).2.2⟩

/-- `monitor_loop` never changes the axes' numbers. -/
theorem monitor_loop_axis_nr (env : Env) (i : ℚ) :
    ∀ (fuel : ℕ) (s : CState),
      (monitor_loop env i fuel s).1.ax1.axis_nr = s.ax1.axis_nr ∧
      (monitor_loop env i fuel s).1.ax2.axis_nr = s.ax2.axis_nr ∧
      (monitor_loop env i fuel s).1.ax3.axis_nr = s.ax3.axis_nr := by
  intro fuel
  induction fuel with
  | zero => exact fun s => ⟨rfl, rfl, rfl⟩
  | succ n ih =>
    intro s
    have hA := update_status_axis_nr env s
    have hB := after_error_check_axis_nr env s
    unfold monitor_loop
    by_cases hm : any_axis_moving s = true
    · rcases hu : (update_status env s).2.2 with e | u
      · simp [hm, hu, hA.1, hA.2.1, hA.2.2]
      · rcases hg : (get_errors (env.tb s.tc)).2 with e | ⟨occ, msg⟩
        · simp [hm, hu, hg, hB.1, hB.2.1, hB.2.2]
        · cases occ
          · rcases hp : (print_metrics false true (after_error_check env s)).2
              with e | u2
            · simp [hm, hu, hg, hp, hB.1, hB.2.1, hB.2.2]
            · have h3 := ih (after_error_check env s)
              simp [hm, hu, hg, hp, h3.1, h3.2.1, h3.2.2, hB.1, hB.2.1, hB.2.2]
          · simp [hm, hu, hg, hB.1, hB.2.1, hB.2.2]
    · rcases hp : (print_metrics false true s).2 with e | u <;> simp [hm, hp]

/-- `monitor_motion` never changes the axes' numbers. -/
theorem monitor_motion_axis_nr (env : Env) (i : ℚ) (fuel : ℕ) (s : CState) :
    (monitor_motion env i fuel s).1.ax1.axis_nr = s.ax1.axis_nr ∧
    (monitor_motion env i fuel s).1.ax2.axis_nr = s.ax2.axis_nr ∧
    (monitor_motion env i fuel s).1.ax3.axis_nr = s.ax3.axis_nr := by
  unfold monitor_motion
  rcases hp : (print_metrics true false s).2 with e | u
  · simp [hp]
  · have h := monitor_loop_axis_nr env i fuel s
    simp [hp, h.1, h.2.1, h.2.2]

/-- The three axes after the zip loop's `set_vel`/`set_abs_pos` pairs from
positions `pᵢ`, velocities `vᵢ` and polled positions `qᵢ`. -/
def commanded_axis (p v q : ℚ) (a : AxisState) : AxisState :=
  { a with des_vel := some v, des_pos := some p,
           tot_travel_time := some (|p - q| / v) }

/-- The controller after the zip loop commanded all three axes. -/
def commanded3 (p1 p2 p3 v1 v2 v3 q1 q2 q3 : ℚ) (s : CState) : CState :=
  { s with ax1 := commanded_axis p1 v1 q1 s.ax1,
           ax2 := commanded_axis p2 v2 q2 s.ax2,
           ax3 := commanded_axis p3 v3 q3 s.ax3 }

/-- The whole zip loop on three in-range absolute commands, on homed axes
with known positions: each axis gets its `VA`/`PA` pair in index order and
the loop hands the commanded state to `finish_motion`. -/
theorem cmd_phase_spec (env : Env) (fuel : ℕ) (p1 p2 p3 v1 v2 v3 q1 q2 q3 : ℚ)
    (S : CState) (acc : List Event)
    (hh1 : S.ax1.homed = true) (hh2 : S.ax2.homed = true) (hh3 : S.ax3.homed = true)
    (hq1 : S.ax1.pos = some q1) (hq2 : S.ax2.pos = some q2) (hq3 : S.ax3.pos = some q3)
    (hp1 : 0 ≤ p1) (hp1' : p1 ≤ 25) (hp2 : 0 ≤ p2) (hp2' : p2 ≤ 25)
    (hp3 : 0 ≤ p3) (hp3' : p3 ≤ 25)
    (hv1 : v1 ≠ 0) (hv2 : v2 ≠ 0) (hv3 : v3 ≠ 0) :
    cmd1 env fuel false [p1, p2, p3] [v1, v2, v3] S acc =
      finish_motion env fuel (commanded3 p1 p2 p3 v1 v2 v3 q1 q2 q3 S)
        (acc ++
          [Event.write S.ax1.axis_nr (.VA v1), Event.write S.ax1.axis_nr (.PA p1),
           Event.write S.ax2.axis_nr (.VA v2), Event.write S.ax2.axis_nr (.PA p2),
           Event.write S.ax3.axis_nr (.VA v3), Event.write S.ax3.axis_nr (.PA p3)]) := by
  have hc1 := command_axis_abs_ok p1 v1 (env.tpr S.pc) q1 S.ax1 hh1 hq1 hp1 hp1' hv1
  have hc2 := command_axis_abs_ok p2 v2 (env.tpr S.pc) q2 S.ax2 hh2 hq2 hp2 hp2' hv2
  have hc3 := command_axis_abs_ok p3 v3 (env.tpr S.pc) q3 S.ax3 hh3 hq3 hp3 hp3' hv3
  simp [cmd1, cmd2, cmd3, hc1, hc2, hc3, commanded3, commanded_axis]

end MotionControllerInterface

namespace MotionControllerInterface

/-- The controller state `perform_motion` reaches after turning on, homing
and refreshing all axes. -/
def pre_motion_state (env : Env) (s : CState) : CState :=
  (update_status env (home_all_axes (turn_on_all_axes s).1).1).1

/-- One zip-loop iteration with `rel = True` on a homed axis: sends `VA`,
queries `TP`, sends `PR`, recording desired velocity and the destination
`pos + reply`; `tot_travel_time` is untouched. -/
theorem command_axis_rel_ok (p v r : ℚ) (a : AxisState)
    (hh : a.homed = true) (h0 : 0 ≤ p + r) (h25 : p + r ≤ 25) :
    command_axis true p v r a =
      ({ a with des_vel := some v, des_pos := some (p + r) },
       [Event.write a.axis_nr (.VA v), Event.query a.axis_nr .TP,
        Event.write a.axis_nr (.PR p)], .ok ()) := by
  unfold command_axis
  rw [if_pos rfl]
  rw [AxisController.set_rel_pos_ok p r (AxisController.set_vel v a).1 hh h0 h25]
  simp [AxisController.set_vel]

/-- One axis after a relative zip-loop command: destination recorded from
the fresh `TP` reply, total travel time untouched. -/
def commanded_axis_rel (p v r : ℚ) (a : AxisState) : AxisState :=
  { a with des_vel := some v, des_pos := some (p + r) }

/-- The controller after the zip loop commanded all three axes in relative
mode; the ghost reply counter advances once per axis. -/
def commanded3_rel (p1 p2 p3 v1 v2 v3 r1 r2 r3 : ℚ) (s : CState) : CState :=
  { s with ax1 := commanded_axis_rel p1 v1 r1 s.ax1,
           ax2 := commanded_axis_rel p2 v2 r2 s.ax2,
           ax3 := commanded_axis_rel p3 v3 r3 s.ax3,
           pc := s.pc + 1 + 1 + 1 }

/-- The whole zip loop on three in-range relative commands on homed axes:
each axis gets its `VA` write, `TP` query and `PR` write in index order and
the loop hands the commanded state to `finish_motion`. -/
theorem cmd_phase_rel_spec (env : Env) (fuel : ℕ) (p1 p2 p3 v1 v2 v3 : ℚ)
    (S : CState) (acc : List Event)
    (hh1 : S.ax1.homed = true) (hh2 : S.ax2.homed = true) (hh3 : S.ax3.homed = true)
    (h01 : 0 ≤ p1 + env.tpr S.pc) (h251 : p1 + env.tpr S.pc ≤ 25)
    (h02 : 0 ≤ p2 + env.tpr (S.pc + 1)) (h252 : p2 + env.tpr (S.pc + 1) ≤ 25)
    (h03 : 0 ≤ p3 + env.tpr (S.pc + 1 + 1)) (h253 : p3 + env.tpr (S.pc + 1 + 1) ≤ 25) :
    cmd1 env fuel true [p1, p2, p3] [v1, v2, v3] S acc =
      finish_motion env fuel
        (commanded3_rel p1 p2 p3 v1 v2 v3 (env.tpr S.pc) (env.tpr (S.pc + 1))
          (env.tpr (S.pc + 1 + 1)) S)
        (acc ++
          [Event.write S.ax1.axis_nr (.VA v1), Event.query S.ax1.axis_nr .TP,
           Event.write S.ax1.axis_nr (.PR p1),
           Event.write S.ax2.axis_nr (.VA v2), Event.query S.ax2.axis_nr .TP,
           Event.write S.ax2.axis_nr (.PR p2),
           Event.write S.ax3.axis_nr (.VA v3), Event.query S.ax3.axis_nr .TP,
           Event.write S.ax3.axis_nr (.PR p3)]) := by
  have hc1 := command_axis_rel_ok p1 v1 (env.tpr S.pc) S.ax1 hh1 h01 h251
  have hc2 := command_axis_rel_ok p2 v2 (env.tpr (S.pc + 1)) S.ax2 hh2 h02 h252
  have hc3 := command_axis_rel_ok p3 v3 (env.tpr (S.pc + 1 + 1)) S.ax3 hh3 h03 h253
  simp [cmd1, cmd2, cmd3, hc1, hc2, hc3, commanded3_rel, commanded_axis_rel]

/-- The controller state `perform_motion` reaches after the zip loop
commanded all three axes (absolute mode). -/
def commanded_state (env : Env) (p1 p2 p3 v1 v2 v3 : ℚ) (s : CState) : CState :=
  commanded3 p1 p2 p3 v1 v2 v3
    (env.poll (home_all_axes (turn_on_all_axes s).1).1.rc
       (home_all_axes (turn_on_all_axes s).1).1.ax1.axis_nr).tp
    (env.poll (home_all_axes (turn_on_all_axes s).1).1.rc
       (home_all_axes (turn_on_all_axes s).1).1.ax2.axis_nr).tp
    (env.poll (home_all_axes (turn_on_all_axes s).1).1.rc
       (home_all_axes (turn_on_all_axes s).1).1.ax3.axis_nr).tp
    (pre_motion_state env s)

/-- The controller state `perform_motion` reaches after the zip loop
commanded all three axes in relative mode. -/
def commanded_state_rel (env : Env) (p1 p2 p3 v1 v2 v3 : ℚ) (s : CState) : CState :=
  commanded3_rel p1 p2 p3 v1 v2 v3
    (env.tpr (pre_motion_state env s).pc)
    (env.tpr ((pre_motion_state env s).pc + 1))
    (env.tpr ((pre_motion_state env s).pc + 1 + 1))
    (pre_motion_state env s)

end MotionControllerInterface

/-! ## Claim C8 -/

open MotionControllerInterface in
/-- **C8**: a successful `perform_motion([p1,p2,p3], [v1,v2,v3], rel)` run
performs exactly: `MO` on all three axes, `OR0` on all three axes, one
refresh of all axes (their twelve queries in index order), then per axis in
index order the velocity command `VA vᵢ` followed by the commanded position
— `PA pᵢ` when `rel` is unset (first conjunct), and the `TP` query with the
`PR pᵢ` relative command when `rel` is set (second conjunct) — then the
monitor loop's trace, and finally `MF` on all three axes. -/
theorem C8_perform_motion_sequence (env : Env) (fuel : ℕ)
    (p1 p2 p3 v1 v2 v3 : ℚ) (s : CState)
    (hn1 : s.ax1.axis_nr = 1) (hn2 : s.ax2.axis_nr = 2) (hn3 : s.ax3.axis_nr = 3)
    (hupd : (update_status env (home_all_axes (turn_on_all_axes s).1).1).2.2 = .ok ()) :
    ((0 ≤ p1 ∧ p1 ≤ 25) → (0 ≤ p2 ∧ p2 ≤ 25) → (0 ≤ p3 ∧ p3 ≤ 25) →
     v1 ≠ 0 → v2 ≠ 0 → v3 ≠ 0 →
     (monitor_motion env (1/10) fuel
       (commanded_state env p1 p2 p3 v1 v2 v3 s)).2.2 = .ok →
     perform_motion env fuel [p1, p2, p3] [v1, v2, v3] false s =
       ((turn_off_all_axes (monitor_motion env (1/10) fuel
           (commanded_state env p1 p2 p3 v1 v2 v3 s)).1).1,
        [Event.write 1 .MO, Event.write 2 .MO, Event.write 3 .MO,
         Event.write 1 .OR0, Event.write 2 .OR0, Event.write 3 .OR0,
         Event.query 1 .TP, Event.query 1 .TV, Event.query 1 .DV, Event.query 1 .MD,
         Event.query 2 .TP, Event.query 2 .TV, Event.query 2 .DV, Event.query 2 .MD,
         Event.query 3 .TP, Event.query 3 .TV, Event.query 3 .DV, Event.query 3 .MD,
         Event.write 1 (.VA v1), Event.write 1 (.PA p1),
         Event.write 2 (.VA v2), Event.write 2 (.PA p2),
         Event.write 3 (.VA v3), Event.write 3 (.PA p3)] ++
          (monitor_motion env (1/10) fuel
            (commanded_state env p1 p2 p3 v1 v2 v3 s)).2.1 ++
          [Event.write 1 .MF, Event.write 2 .MF, Event.write 3 .MF],
        .ok)) ∧
    ((0 ≤ p1 + env.tpr (pre_motion_state env s).pc ∧
        p1 + env.tpr (pre_motion_state env s).pc ≤ 25) →
     (0 ≤ p2 + env.tpr ((pre_motion_state env s).pc + 1) ∧
        p2 + env.tpr ((pre_motion_state env s).pc + 1) ≤ 25) →
     (0 ≤ p3 + env.tpr ((pre_motion_state env s).pc + 1 + 1) ∧
        p3 + env.tpr ((pre_motion_state env s).pc + 1 + 1) ≤ 25) →
     (monitor_motion env (1/10) fuel
       (commanded_state_rel env p1 p2 p3 v1 v2 v3 s)).2.2 = .ok →
     perform_motion env fuel [p1, p2, p3] [v1, v2, v3] true s =
       ((turn_off_all_axes (monitor_motion env (1/10) fuel
           (commanded_state_rel env p1 p2 p3 v1 v2 v3 s)).1).1,
        [Event.write 1 .MO, Event.write 2 .MO, Event.write 3 .MO,
         Event.write 1 .OR0, Event.write 2 .OR0, Event.write 3 .OR0,
         Event.query 1 .TP, Event.query 1 .TV, Event.query 1 .DV, Event.query 1 .MD,
         Event.query 2 .TP, Event.query 2 .TV, Event.query 2 .DV, Event.query 2 .MD,
         Event.query 3 .TP, Event.query 3 .TV, Event.query 3 .DV, Event.query 3 .MD,
         Event.write 1 (.VA v1), Event.query 1 .TP, Event.write 1 (.PR p1),
         Event.write 2 (.VA v2), Event.query 2 .TP, Event.write 2 (.PR p2),
         Event.write 3 (.VA v3), Event.query 3 .TP, Event.write 3 (.PR p3)] ++
          (monitor_motion env (1/10) fuel
            (commanded_state_rel env p1 p2 p3 v1 v2 v3 s)).2.1 ++
          [Event.write 1 .MF, Event.write 2 .MF, Event.write 3 .MF],
        .ok)) := by
  have hUS := update_status_ok_spec env (home_all_axes (turn_on_all_axes s).1).1 hupd
  -- Facts about the refreshed axes, shared by both modes.
  have hh1 : (update_status env (home_all_axes (turn_on_all_axes s).1).1).1.ax1.homed
      = true := by
    rw [hUS]
    simp [AxisController.update_axis_homed, home_all_axes, turn_on_all_axes,
          AxisController.home, AxisController.turn_on]
  have hh2 : (update_status env (home_all_axes (turn_on_all_axes s).1).1).1.ax2.homed
      = true := by
    rw [hUS]
    simp [AxisController.update_axis_homed, home_all_axes, turn_on_all_axes,
          AxisController.home, AxisController.turn_on]
  have hh3 : (update_status env (home_all_axes (turn_on_all_axes s).1).1).1.ax3.homed
      = true := by
    rw [hUS]
    simp [AxisController.update_axis_homed, home_all_axes, turn_on_all_axes,
          AxisController.home, AxisController.turn_on]
  constructor
  · -- Absolute mode.
    intro hp1 hp2 hp3 hv1 hv2 hv3 hmon
    have hstep1 : perform_motion env fuel [p1, p2, p3] [v1, v2, v3] false s =
        cmd1 env fuel false [p1, p2, p3] [v1, v2, v3]
          (update_status env (home_all_axes (turn_on_all_axes s).1).1).1
          ((turn_on_all_axes s).2 ++ (home_all_axes (turn_on_all_axes s).1).2 ++
            (update_status env (home_all_axes (turn_on_all_axes s).1).1).2.1) := by
      unfold perform_motion
      rw [hupd]
    have hq1 : (update_status env (home_all_axes (turn_on_all_axes s).1).1).1.ax1.pos =
        some ((env.poll (home_all_axes (turn_on_all_axes s).1).1.rc
          (home_all_axes (turn_on_all_axes s).1).1.ax1.axis_nr).tp) := by
      rw [hUS]
      simp [AxisController.update_axis_pos]
    have hq2 : (update_status env (home_all_axes (turn_on_all_axes s).1).1).1.ax2.pos =
        some ((env.poll (home_all_axes (turn_on_all_axes s).1).1.rc
          (home_all_axes (turn_on_all_axes s).1).1.ax2.axis_nr).tp) := by
      rw [hUS]
      simp [AxisController.update_axis_pos]
    have hq3 : (update_status env (home_all_axes (turn_on_all_axes s).1).1).1.ax3.pos =
        some ((env.poll (home_all_axes (turn_on_all_axes s).1).1.rc
          (home_all_axes (turn_on_all_axes s).1).1.ax3.axis_nr).tp) := by
      rw [hUS]
      simp [AxisController.update_axis_pos]
    have hstep2 := cmd_phase_spec env fuel p1 p2 p3 v1 v2 v3
        (env.poll (home_all_axes (turn_on_all_axes s).1).1.rc
          (home_all_axes (turn_on_all_axes s).1).1.ax1.axis_nr).tp
        (env.poll (home_all_axes (turn_on_all_axes s).1).1.rc
          (home_all_axes (turn_on_all_axes s).1).1.ax2.axis_nr).tp
        (env.poll (home_all_axes (turn_on_all_axes s).1).1.rc
          (home_all_axes (turn_on_all_axes s).1).1.ax3.axis_nr).tp
        (update_status env (home_all_axes (turn_on_all_axes s).1).1).1
        ((turn_on_all_axes s).2 ++ (home_all_axes (turn_on_all_axes s).1).2 ++
          (update_status env (home_all_axes (turn_on_all_axes s).1).1).2.1)
        hh1 hh2 hh3 hq1 hq2 hq3 hp1.1 hp1.2 hp2.1 hp2.2 hp3.1 hp3.2 hv1 hv2 hv3
    have hstep3 : finish_motion env fuel (commanded_state env p1 p2 p3 v1 v2 v3 s)
        (((turn_on_all_axes s).2 ++ (home_all_axes (turn_on_all_axes s).1).2 ++
            (update_status env (home_all_axes (turn_on_all_axes s).1).1).2.1) ++
          [Event.write (update_status env (home_all_axes (turn_on_all_axes s).1).1).1.ax1.axis_nr (.VA v1),
           Event.write (update_status env (home_all_axes (turn_on_all_axes s).1).1).1.ax1.axis_nr (.PA p1),
           Event.write (update_status env (home_all_axes (turn_on_all_axes s).1).1).1.ax2.axis_nr (.VA v2),
           Event.write (update_status env (home_all_axes (turn_on_all_axes s).1).1).1.ax2.axis_nr (.PA p2),
           Event.write (update_status env (home_all_axes (turn_on_all_axes s).1).1).1.ax3.axis_nr (.VA v3),
           Event.write (update_status env (home_all_axes (turn_on_all_axes s).1).1).1.ax3.axis_nr (.PA p3)]) =
        ((turn_off_all_axes (monitor_motion env (1/10) fuel
            (commanded_state env p1 p2 p3 v1 v2 v3 s)).1).1,
         (((turn_on_all_axes s).2 ++ (home_all_axes (turn_on_all_axes s).1).2 ++
            (update_status env (home_all_axes (turn_on_all_axes s).1).1).2.1) ++
          [Event.write (update_status env (home_all_axes (turn_on_all_axes s).1).1).1.ax1.axis_nr (.VA v1),
           Event.write (update_status env (home_all_axes (turn_on_all_axes s).1).1).1.ax1.axis_nr (.PA p1),
           Event.write (update_status env (home_all_axes (turn_on_all_axes s).1).1).1.ax2.axis_nr (.VA v2),
           Event.write (update_status env (home_all_axes (turn_on_all_axes s).1).1).1.ax2.axis_nr (.PA p2),
           Event.write (update_status env (home_all_axes (turn_on_all_axes s).1).1).1.ax3.axis_nr (.VA v3),
           Event.write (update_status env (home_all_axes (turn_on_all_axes s).1).1).1.ax3.axis_nr (.PA p3)]) ++
           (monitor_motion env (1/10) fuel
             (commanded_state env p1 p2 p3 v1 v2 v3 s)).2.1 ++
           (turn_off_all_axes (monitor_motion env (1/10) fuel
             (commanded_state env p1 p2 p3 v1 v2 v3 s)).1).2,
         .ok) := by
      unfold finish_motion
      rw [hmon]
    have hCS1 : (commanded_state env p1 p2 p3 v1 v2 v3 s).ax1.axis_nr = 1 := by
      unfold commanded_state commanded3 commanded_axis pre_motion_state
      rw [hUS]
      simp [AxisController.update_axis_axis_nr, home_all_axes, turn_on_all_axes,
            AxisController.home, AxisController.turn_on, hn1]
    have hCS2 : (commanded_state env p1 p2 p3 v1 v2 v3 s).ax2.axis_nr = 2 := by
      unfold commanded_state commanded3 commanded_axis pre_motion_state
      rw [hUS]
      simp [AxisController.update_axis_axis_nr, home_all_axes, turn_on_all_axes,
            AxisController.home, AxisController.turn_on, hn2]
    have hCS3 : (commanded_state env p1 p2 p3 v1 v2 v3 s).ax3.axis_nr = 3 := by
      unfold commanded_state commanded3 commanded_axis pre_motion_state
      rw [hUS]
      simp [AxisController.update_axis_axis_nr, home_all_axes, turn_on_all_axes,
            AxisController.home, AxisController.turn_on, hn3]
    have hM := monitor_motion_axis_nr env (1/10) fuel
        (commanded_state env p1 p2 p3 v1 v2 v3 s)
    have hM1 := hM.1.trans hCS1
    have hM2 := hM.2.1.trans hCS2
    have hM3 := hM.2.2.trans hCS3
    simp only [one_div] at hM1 hM2 hM3
    rw [hstep1, hstep2]
    rw [show commanded3 p1 p2 p3 v1 v2 v3
          (env.poll (home_all_axes (turn_on_all_axes s).1).1.rc
            (home_all_axes (turn_on_all_axes s).1).1.ax1.axis_nr).tp
          (env.poll (home_all_axes (turn_on_all_axes s).1).1.rc
            (home_all_axes (turn_on_all_axes s).1).1.ax2.axis_nr).tp
          (env.poll (home_all_axes (turn_on_all_axes s).1).1.rc
            (home_all_axes (turn_on_all_axes s).1).1.ax3.axis_nr).tp
          (update_status env (home_all_axes (turn_on_all_axes s).1).1).1 =
        commanded_state env p1 p2 p3 v1 v2 v3 s from rfl]
    rw [hstep3]
    rw [hUS]
    refine Prod.ext rfl (Prod.ext ?_ rfl)
    simp [turn_on_all_axes, home_all_axes, turn_off_all_axes,
          AxisController.turn_on, AxisController.home, AxisController.turn_off,
          AxisController.upd_queries, AxisController.update_axis_axis_nr,
          hn1, hn2, hn3, hM1, hM2, hM3]
  · -- Relative mode.
    intro hr1 hr2 hr3 hmon
    have hstep1 : perform_motion env fuel [p1, p2, p3] [v1, v2, v3] true s =
        cmd1 env fuel true [p1, p2, p3] [v1, v2, v3]
          (update_status env (home_all_axes (turn_on_all_axes s).1).1).1
          ((turn_on_all_axes s).2 ++ (home_all_axes (turn_on_all_axes s).1).2 ++
            (update_status env (home_all_axes (turn_on_all_axes s).1).1).2.1) := by
      unfold perform_motion
      rw [hupd]
    have hstep2 := cmd_phase_rel_spec env fuel p1 p2 p3 v1 v2 v3
        (update_status env (home_all_axes (turn_on_all_axes s).1).1).1
        ((turn_on_all_axes s).2 ++ (home_all_axes (turn_on_all_axes s).1).2 ++
          (update_status env (home_all_axes (turn_on_all_axes s).1).1).2.1)
        hh1 hh2 hh3 hr1.1 hr1.2 hr2.1 hr2.2 hr3.1 hr3.2
    have hstep3 : finish_motion env fuel (commanded_state_rel env p1 p2 p3 v1 v2 v3 s)
        (((turn_on_all_axes s).2 ++ (home_all_axes (turn_on_all_axes s).1).2 ++
            (update_status env (home_all_axes (turn_on_all_axes s).1).1).2.1) ++
          [Event.write (update_status env (home_all_axes (turn_on_all_axes s).1).1).1.ax1.axis_nr (.VA v1),
           Event.query (update_status env (home_all_axes (turn_on_all_axes s).1).1).1.ax1.axis_nr .TP,
           Event.write (update_status env (home_all_axes (turn_on_all_axes s).1).1).1.ax1.axis_nr (.PR p1),
           Event.write (update_status env (home_all_axes (turn_on_all_axes s).1).1).1.ax2.axis_nr (.VA v2),
           Event.query (update_status env (home_all_axes (turn_on_all_axes s).1).1).1.ax2.axis_nr .TP,
           Event.write (update_status env (home_all_axes (turn_on_all_axes s).1).1).1.ax2.axis_nr (.PR p2),
           Event.write (update_status env (home_all_axes (turn_on_all_axes s).1).1).1.ax3.axis_nr (.VA v3),
           Event.query (update_status env (home_all_axes (turn_on_all_axes s).1).1).1.ax3.axis_nr .TP,
           Event.write (update_status env (home_all_axes (turn_on_all_axes s).1).1).1.ax3.axis_nr (.PR p3)]) =
        ((turn_off_all_axes (monitor_motion env (1/10) fuel
            (commanded_state_rel env p1 p2 p3 v1 v2 v3 s)).1).1,
         (((turn_on_all_axes s).2 ++ (home_all_axes (turn_on_all_axes s).1).2 ++
            (update_status env (home_all_axes (turn_on_all_axes s).1).1).2.1) ++
          [Event.write (update_status env (home_all_axes (turn_on_all_axes s).1).1).1.ax1.axis_nr (.VA v1),
           Event.query (update_status env (home_all_axes (turn_on_all_axes s).1).1).1.ax1.axis_nr .TP,
           Event.write (update_status env (home_all_axes (turn_on_all_axes s).1).1).1.ax1.axis_nr (.PR p1),
           Event.write (update_status env (home_all_axes (turn_on_all_axes s).1).1).1.ax2.axis_nr (.VA v2),
           Event.query (update_status env (home_all_axes (turn_on_all_axes s).1).1).1.ax2.axis_nr .TP,
           Event.write (update_status env (home_all_axes (turn_on_all_axes s).1).1).1.ax2.axis_nr (.PR p2),
           Event.write (update_status env (home_all_axes (turn_on_all_axes s).1).1).1.ax3.axis_nr (.VA v3),
           Event.query (update_status env (home_all_axes (turn_on_all_axes s).1).1).1.ax3.axis_nr .TP,
           Event.write (update_status env (home_all_axes (turn_on_all_axes s).1).1).1.ax3.axis_nr (.PR p3)]) ++
           (monitor_motion env (1/10) fuel
             (commanded_state_rel env p1 p2 p3 v1 v2 v3 s)).2.1 ++
           (turn_off_all_axes (monitor_motion env (1/10) fuel
             (commanded_state_rel env p1 p2 p3 v1 v2 v3 s)).1).2,
         .ok) := by
      unfold finish_motion
      rw [hmon]
    have hCS1 : (commanded_state_rel env p1 p2 p3 v1 v2 v3 s).ax1.axis_nr = 1 := by
      unfold commanded_state_rel commanded3_rel commanded_axis_rel pre_motion_state
      rw [hUS]
      simp [AxisController.update_axis_axis_nr, home_all_axes, turn_on_all_axes,
            AxisController.home, AxisController.turn_on, hn1]
    have hCS2 : (commanded_state_rel env p1 p2 p3 v1 v2 v3 s).ax2.axis_nr = 2 := by
      unfold commanded_state_rel commanded3_rel commanded_axis_rel pre_motion_state
      rw [hUS]
      simp [AxisController.update_axis_axis_nr, home_all_axes, turn_on_all_axes,
            AxisController.home, AxisController.turn_on, hn2]
    have hCS3 : (commanded_state_rel env p1 p2 p3 v1 v2 v3 s).ax3.axis_nr = 3 := by
      unfold commanded_state_rel commanded3_rel commanded_axis_rel pre_motion_state
      rw [hUS]
      simp [AxisController.update_axis_axis_nr, home_all_axes, turn_on_all_axes,
            AxisController.home, AxisController.turn_on, hn3]
    have hM := monitor_motion_axis_nr env (1/10) fuel
        (commanded_state_rel env p1 p2 p3 v1 v2 v3 s)
    have hM1 := hM.1.trans hCS1
    have hM2 := hM.2.1.trans hCS2
    have hM3 := hM.2.2.trans hCS3
    simp only [one_div] at hM1 hM2 hM3
    rw [hstep1, hstep2]
    rw [show commanded3_rel p1 p2 p3 v1 v2 v3
          (env.tpr (update_status env (home_all_axes (turn_on_all_axes s).1).1).1.pc)
          (env.tpr ((update_status env (home_all_axes (turn_on_all_axes s).1).1).1.pc + 1))
          (env.tpr ((update_status env (home_all_axes (turn_on_all_axes s).1).1).1.pc + 1 + 1))
          (update_status env (home_all_axes (turn_on_all_axes s).1).1).1 =
        commanded_state_rel env p1 p2 p3 v1 v2 v3 s from rfl]
    rw [hstep3]
    rw [hUS]
    refine Prod.ext rfl (Prod.ext ?_ rfl)
    simp [turn_on_all_axes, home_all_axes, turn_off_all_axes,
          AxisController.turn_on, AxisController.home, AxisController.turn_off,
          AxisController.upd_queries, AxisController.update_axis_axis_nr,
          hn1, hn2, hn3, hM1, hM2, hM3]

/-- Axis state left behind by a previous completed run: metrics populated,
no pending destination. -/
def axPrev (n : ℕ) : AxisState :=
  { axis_nr := n, moving := some false, on' := some false, homed := false,
    pos := some 0, vel := some 0, des_pos := none, tot_travel_time := none,
    travel_time := some 0, perc_done := some 0, des_vel := some 1 }

/-- Controller state for the end-to-end witness run. -/
def csC8 : CState :=
  { ax1 := axPrev 1, ax2 := axPrev 2, ax3 := axPrev 3, rc := 0, tc := 0, pc := 0 }

/-- Environment for the end-to-end witness run: position replies `2`,
velocity replies `1`, `MD` reports motion done, no controller error. -/
def envC8 : Env :=
  { poll := fun _ _ => ⟨2, 1, 1, 1⟩, tb := fun _ => "0,12:00:00,NO ERROR",
    tpr := fun _ => 2 }

open MotionControllerInterface in
/-- **C8** witness: commanding all three axes to `23` mm at `0.05` mm/s in
absolute mode, and by `3` mm in relative mode, produces exactly the claimed
command sequences and terminates normally. -/
theorem C8_witness :
    (perform_motion envC8 1 [23, 23, 23] [1/20, 1/20, 1/20] false csC8 =
      ((turn_off_all_axes (monitor_motion envC8 (1/10) 1
          (commanded_state envC8 23 23 23 (1/20) (1/20) (1/20) csC8)).1).1,
       [Event.write 1 .MO, Event.write 2 .MO, Event.write 3 .MO,
        Event.write 1 .OR0, Event.write 2 .OR0, Event.write 3 .OR0,
        Event.query 1 .TP, Event.query 1 .TV, Event.query 1 .DV, Event.query 1 .MD,
        Event.query 2 .TP, Event.query 2 .TV, Event.query 2 .DV, Event.query 2 .MD,
        Event.query 3 .TP, Event.query 3 .TV, Event.query 3 .DV, Event.query 3 .MD,
        Event.write 1 (.VA (1/20)), Event.write 1 (.PA 23),
        Event.write 2 (.VA (1/20)), Event.write 2 (.PA 23),
        Event.write 3 (.VA (1/20)), Event.write 3 (.PA 23)] ++
         (monitor_motion envC8 (1/10) 1
           (commanded_state envC8 23 23 23 (1/20) (1/20) (1/20) csC8)).2.1 ++
         [Event.write 1 .MF, Event.write 2 .MF, Event.write 3 .MF],
       .ok)) ∧
    (perform_motion envC8 1 [3, 3, 3] [1/20, 1/20, 1/20] true csC8 =
      ((turn_off_all_axes (monitor_motion envC8 (1/10) 1
          (commanded_state_rel envC8 3 3 3 (1/20) (1/20) (1/20) csC8)).1).1,
       [Event.write 1 .MO, Event.write 2 .MO, Event.write 3 .MO,
        Event.write 1 .OR0, Event.write 2 .OR0, Event.write 3 .OR0,
        Event.query 1 .TP, Event.query 1 .TV, Event.query 1 .DV, Event.query 1 .MD,
        Event.query 2 .TP, Event.query 2 .TV, Event.query 2 .DV, Event.query 2 .MD,
        Event.query 3 .TP, Event.query 3 .TV, Event.query 3 .DV, Event.query 3 .MD,
        Event.write 1 (.VA (1/20)), Event.query 1 .TP, Event.write 1 (.PR 3),
        Event.write 2 (.VA (1/20)), Event.query 2 .TP, Event.write 2 (.PR 3),
        Event.write 3 (.VA (1/20)), Event.query 3 .TP, Event.write 3 (.PR 3)] ++
         (monitor_motion envC8 (1/10) 1
           (commanded_state_rel envC8 3 3 3 (1/20) (1/20) (1/20) csC8)).2.1 ++
         [Event.write 1 .MF, Event.write 2 .MF, Event.write 3 .MF],
       .ok)) :=
  ⟨(C8_perform_motion_sequence envC8 1 23 23 23 (1/20) (1/20) (1/20) csC8
      rfl rfl rfl rfl).1
      ⟨by norm_num, by norm_num⟩ ⟨by norm_num, by norm_num⟩ ⟨by norm_num, by norm_num⟩
      (by norm_num) (by norm_num) (by norm_num) rfl,
   (C8_perform_motion_sequence envC8 1 3 3 3 (1/20) (1/20) (1/20) csC8
      rfl rfl rfl rfl).2
      ⟨by norm_num [envC8], by norm_num [envC8]⟩
      ⟨by norm_num [envC8], by norm_num [envC8]⟩
      ⟨by norm_num [envC8], by norm_num [envC8]⟩ rfl⟩
